import Mathlib

/-! XboxGenericMsg: the generic controller snapshot of `src/xboxmsg.cpp`.

A shallow embedding of the snapshot class `XboxGenericMsg` (its four member arrays, the
constructor, `clear`, `get_button`, `set_button`, `get_axis`, `set_axis`, `get_axis_float`,
`set_axis_float`, `get_axis_min`, `get_axis_max`), of the name tables `string2btn`,
`string2axis`, `axis2string`, `btn2string` and of the value normalisers `u8_to_s16` and
`float_to_s16`, followed by theorems about them.

Conventions of the embedding:
* a C array indexed by an enumeration is a total function on that enumeration;
* a C `int` is a Lean `Int`; the only arithmetic that can leave the 32-bit range (the negation
  and the addition of the TRIGGER rule) is reduced with `int_wrap`;
* a failed `assert` is the result `none`;
* a C `float` is an IEEE-754 binary32 value (`Float32`), every `float` operation is rounded to
  binary32 with the default rounding (to nearest, ties to even), and a conversion to an integer
  type that C++ leaves undefined is the result `none`.
-/

namespace XboxMsg

/-! ## Enumerations -/

/-- Modelled from the spec: the enumeration `XboxButton` is declared in `xboxmsg.hpp`, which is
not part of the sources; its enumerators are the ones the exhaustive switch of `btn2string`
lists, `XBOX_BTN_UNKNOWN` first (value 0, the loops of `operator<<` start at 1) and
`XBOX_BTN_MAX` last (the array length). -/
inductive XboxButton where
  | XBOX_BTN_UNKNOWN
  | XBOX_BTN_START
  | XBOX_BTN_GUIDE
  | XBOX_BTN_BACK
  | XBOX_BTN_A
  | XBOX_BTN_B
  | XBOX_BTN_X
  | XBOX_BTN_Y
  | XBOX_BTN_LB
  | XBOX_BTN_RB
  | XBOX_BTN_LT
  | XBOX_BTN_RT
  | XBOX_BTN_THUMB_L
  | XBOX_BTN_THUMB_R
  | XBOX_DPAD_UP
  | XBOX_DPAD_DOWN
  | XBOX_DPAD_LEFT
  | XBOX_DPAD_RIGHT
  | XBOX_BTN_MAX
  deriving DecidableEq

/-- Modelled from the spec: the enumeration `XboxAxis` is declared in `xboxmsg.hpp`, which is
not part of the sources; its enumerators are the ones the exhaustive switch of `axis2string`
lists, `XBOX_AXIS_UNKNOWN` first and `XBOX_AXIS_MAX` last (the array length). -/
inductive XboxAxis where
  | XBOX_AXIS_UNKNOWN
  | XBOX_AXIS_X1
  | XBOX_AXIS_Y1
  | XBOX_AXIS_X2
  | XBOX_AXIS_Y2
  | XBOX_AXIS_LT
  | XBOX_AXIS_RT
  | XBOX_AXIS_DPAD_X
  | XBOX_AXIS_DPAD_Y
  | XBOX_AXIS_TRIGGER
  | XBOX_AXIS_A
  | XBOX_AXIS_B
  | XBOX_AXIS_X
  | XBOX_AXIS_Y
  | XBOX_AXIS_BLACK
  | XBOX_AXIS_WHITE
  | XBOX_AXIS_MAX
  deriving DecidableEq

open XboxButton XboxAxis

/-- The defined buttons: every enumerator except `XBOX_BTN_UNKNOWN` and `XBOX_BTN_MAX`. -/
def XboxButton.defined (b : XboxButton) : Bool :=
  b != XBOX_BTN_UNKNOWN && b != XBOX_BTN_MAX

/-- The defined axes: every enumerator except `XBOX_AXIS_UNKNOWN` and `XBOX_AXIS_MAX`. -/
def XboxAxis.defined (a : XboxAxis) : Bool :=
  a != XBOX_AXIS_UNKNOWN && a != XBOX_AXIS_MAX

/-! ## C integer conversions -/

/-- Reduction of a mathematical integer to the 32-bit two's complement range of a C `int`. -/
def int_wrap (x : Int) : Int :=
  (x + 2147483648) % 4294967296 - 2147483648

/-- The C conversion `bool → int` (integral promotion): `false ↦ 0`, `true ↦ 1`. -/
def bool_to_int (b : Bool) : Int :=
  if b then 1 else 0

/-- The C conversion `int → bool` of a `return` statement: nonzero is `true`. -/
def int_to_bool (x : Int) : Bool :=
  decide (x ≠ 0)

/-! ## The snapshot -/

/-- The member arrays of `class XboxGenericMsg`: `int m_axis_state[XBOX_AXIS_MAX]`,
`bool m_button_state[XBOX_BTN_MAX]`, `bool m_axis_set[XBOX_AXIS_MAX]` and
`bool m_button_set[XBOX_BTN_MAX]`, each as a function on its index enumeration. -/
structure XboxGenericMsg where
  m_axis_state : XboxAxis → Int
  m_button_state : XboxButton → Bool
  m_axis_set : XboxAxis → Bool
  m_button_set : XboxButton → Bool

/-- `XboxGenericMsg::clear` (lines 88-96): four `std::fill_n` calls that overwrite every entry
of the four arrays with `0`, `false`, `false`, `false`. -/
def XboxGenericMsg.clear (_s : XboxGenericMsg) : XboxGenericMsg :=
  { m_axis_state := fun _ => 0
    m_button_state := fun _ => false
    m_axis_set := fun _ => false
    m_button_set := fun _ => false }

/-- `XboxGenericMsg::XboxGenericMsg` (lines 81-86): the member initialisers value-initialise
`m_axis_state` and `m_button_state`, the two flag arrays keep whatever the storage held
(`uninit`), and the body calls `clear()`. -/
def XboxGenericMsg.ctor (uninit : XboxGenericMsg) : XboxGenericMsg :=
  XboxGenericMsg.clear
    { m_axis_state := fun _ => 0
      m_button_state := fun _ => false
      m_axis_set := uninit.m_axis_set
      m_button_set := uninit.m_button_set }

/-- `XboxGenericMsg::get_button` (lines 98-141). An unset button is derived from the raw
`m_axis_state` entry of its axis, converted to `bool`. -/
def XboxGenericMsg.get_button (s : XboxGenericMsg) (button : XboxButton) : Bool :=
  if s.m_button_set button then
    s.m_button_state button
  else
    match button with
    | XBOX_BTN_A => int_to_bool (s.m_axis_state XBOX_AXIS_A)
    | XBOX_BTN_B => int_to_bool (s.m_axis_state XBOX_AXIS_B)
    | XBOX_BTN_X => int_to_bool (s.m_axis_state XBOX_AXIS_X)
    | XBOX_BTN_Y => int_to_bool (s.m_axis_state XBOX_AXIS_Y)
    | XBOX_BTN_LB => int_to_bool (s.m_axis_state XBOX_AXIS_BLACK)
    | XBOX_BTN_RB => int_to_bool (s.m_axis_state XBOX_AXIS_WHITE)
    | XBOX_BTN_LT => int_to_bool (s.m_axis_state XBOX_AXIS_LT)
    | XBOX_BTN_RT => int_to_bool (s.m_axis_state XBOX_AXIS_RT)
    | XBOX_DPAD_UP => decide (s.m_axis_state XBOX_AXIS_DPAD_Y < 0)
    | XBOX_DPAD_DOWN => decide (s.m_axis_state XBOX_AXIS_DPAD_Y > 0)
    | XBOX_DPAD_LEFT => decide (s.m_axis_state XBOX_AXIS_DPAD_X < 0)
    | XBOX_DPAD_RIGHT => decide (s.m_axis_state XBOX_AXIS_DPAD_X > 0)
    | _ => false

/-- `XboxGenericMsg::set_button` (lines 143-148). -/
def XboxGenericMsg.set_button (s : XboxGenericMsg) (button : XboxButton) (v : Bool) :
    XboxGenericMsg :=
  { s with
    m_button_set := Function.update s.m_button_set button true
    m_button_state := Function.update s.m_button_state button v }

/-- `XboxGenericMsg::get_axis` (lines 150-208). An unset axis is derived from the raw
`m_button_state` entries; the TRIGGER rule `-get_axis(LT) + get_axis(RT)` calls `get_axis`
again, and its negation and addition are C `int` operations. -/
def XboxGenericMsg.get_axis (s : XboxGenericMsg) (axis : XboxAxis) : Int :=
  if s.m_axis_set axis then
    s.m_axis_state axis
  else
    match axis with
    | XBOX_AXIS_A => bool_to_int (s.m_button_state XBOX_BTN_A)
    | XBOX_AXIS_B => bool_to_int (s.m_button_state XBOX_BTN_B)
    | XBOX_AXIS_X => bool_to_int (s.m_button_state XBOX_BTN_X)
    | XBOX_AXIS_Y => bool_to_int (s.m_button_state XBOX_BTN_Y)
    | XBOX_AXIS_LT => bool_to_int (s.m_button_state XBOX_BTN_LT) * 255
    | XBOX_AXIS_RT => bool_to_int (s.m_button_state XBOX_BTN_RT) * 255
    | XBOX_AXIS_BLACK => bool_to_int (s.m_button_state XBOX_BTN_LB) * 255
    | XBOX_AXIS_WHITE => bool_to_int (s.m_button_state XBOX_BTN_RB) * 255
    | XBOX_AXIS_DPAD_X =>
      if s.m_button_state XBOX_DPAD_LEFT && !s.m_button_state XBOX_DPAD_RIGHT then -1
      else if !s.m_button_state XBOX_DPAD_LEFT && s.m_button_state XBOX_DPAD_RIGHT then 1
      else 0
    | XBOX_AXIS_DPAD_Y =>
      if s.m_button_state XBOX_DPAD_UP && !s.m_button_state XBOX_DPAD_DOWN then -1
      else if !s.m_button_state XBOX_DPAD_UP && s.m_button_state XBOX_DPAD_DOWN then 1
      else 0
    | XBOX_AXIS_TRIGGER =>
      int_wrap (int_wrap (-(XboxGenericMsg.get_axis s XBOX_AXIS_LT))
        + XboxGenericMsg.get_axis s XBOX_AXIS_RT)
    | _ => 0
termination_by (if axis = XBOX_AXIS_TRIGGER then 1 else 0 : Nat)
decreasing_by all_goals simp_wf

/-- `XboxGenericMsg::set_axis` (lines 210-215). -/
def XboxGenericMsg.set_axis (s : XboxGenericMsg) (axis : XboxAxis) (v : Int) :
    XboxGenericMsg :=
  { s with
    m_axis_set := Function.update s.m_axis_set axis true
    m_axis_state := Function.update s.m_axis_state axis v }

/-- `XboxGenericMsg::get_axis_min` (lines 506-534); `none` is the failed
`assert(!"never reached")` of the default case. -/
def get_axis_min (axis : XboxAxis) : Option Int :=
  match axis with
  | XBOX_AXIS_X1 => some (-32768)
  | XBOX_AXIS_Y1 => some (-32768)
  | XBOX_AXIS_X2 => some (-32768)
  | XBOX_AXIS_Y2 => some (-32768)
  | XBOX_AXIS_LT => some 0
  | XBOX_AXIS_RT => some 0
  | XBOX_AXIS_DPAD_X => some (-1)
  | XBOX_AXIS_DPAD_Y => some (-1)
  | XBOX_AXIS_TRIGGER => some (-255)
  | XBOX_AXIS_A => some 0
  | XBOX_AXIS_B => some 0
  | XBOX_AXIS_X => some 0
  | XBOX_AXIS_Y => some 0
  | XBOX_AXIS_BLACK => some 0
  | XBOX_AXIS_WHITE => some 0
  | _ => none

/-- `XboxGenericMsg::get_axis_max` (lines 536-564); `none` is the failed
`assert(!"never reached")` of the default case. -/
def get_axis_max (axis : XboxAxis) : Option Int :=
  match axis with
  | XBOX_AXIS_X1 => some 32767
  | XBOX_AXIS_Y1 => some 32767
  | XBOX_AXIS_X2 => some 32767
  | XBOX_AXIS_Y2 => some 32767
  | XBOX_AXIS_LT => some 255
  | XBOX_AXIS_RT => some 255
  | XBOX_AXIS_DPAD_X => some 1
  | XBOX_AXIS_DPAD_Y => some 1
  | XBOX_AXIS_TRIGGER => some 255
  | XBOX_AXIS_A => some 255
  | XBOX_AXIS_B => some 255
  | XBOX_AXIS_X => some 255
  | XBOX_AXIS_Y => some 255
  | XBOX_AXIS_BLACK => some 255
  | XBOX_AXIS_WHITE => some 255
  | _ => none

/-- `XboxGenericMsg::get_axis_float` (lines 217-221). The conversion `to_float` of `helper.hpp`
is not part of the sources and is a parameter, as is the type `R` of C floats. The arguments
`get_axis_min(axis)` and `get_axis_max(axis)` are evaluated first; either may hit its
assertion. -/
def XboxGenericMsg.get_axis_float {R : Type} (to_float : Int → Int → Int → R)
    (s : XboxGenericMsg) (axis : XboxAxis) : Option R :=
  match get_axis_min axis, get_axis_max axis with
  | some lo, some hi => some (to_float (s.m_axis_state axis) lo hi)
  | _, _ => none

/-- `XboxGenericMsg::set_axis_float` (lines 223-227). The conversion `from_float` of
`helper.hpp` is not part of the sources and is a parameter, as is the type `R` of C floats.
Only `m_axis_state[axis]` is assigned. -/
def XboxGenericMsg.set_axis_float {R : Type} (from_float : R → Int → Int → Int)
    (s : XboxGenericMsg) (axis : XboxAxis) (v : R) : Option XboxGenericMsg :=
  match get_axis_min axis, get_axis_max axis with
  | some lo, some hi =>
    some { s with m_axis_state := Function.update s.m_axis_state axis (from_float v lo hi) }
  | _, _ => none

/-! ## Name tables -/

/-- Modelled from the spec: `to_lower` is declared in `helper.hpp`, which is not part of the
sources; it is ASCII lower-casing of every character of the string. -/
def to_lower (str : String) : String :=
  String.mk (str.data.map Char.toLower)

/-- `string2btn` (lines 346-392). The thrown `std::runtime_error` is the result `error`; it
carries the message expression handed to the `raise_exception` macro (the macro itself is in
`raise_exception.hpp`, which is not part of the sources). -/
def string2btn (str_ : String) : Except String XboxButton :=
  let str := to_lower str_
  if str == "start" then Except.ok XBOX_BTN_START
  else if str == "guide" || str == "ps" then Except.ok XBOX_BTN_GUIDE
  else if str == "back" || str == "select" then Except.ok XBOX_BTN_BACK
  else if str == "a" || str == "1" || str == "green" || str == "cross" then
    Except.ok XBOX_BTN_A
  else if str == "b" || str == "2" || str == "red" || str == "circle" then
    Except.ok XBOX_BTN_B
  else if str == "x" || str == "3" || str == "blue" || str == "square" then
    Except.ok XBOX_BTN_X
  else if str == "y" || str == "4" || str == "yellow" || str == "triangle" then
    Except.ok XBOX_BTN_Y
  else if str == "lb" || str == "5" || str == "orange" || str == "white" || str == "l1" then
    Except.ok XBOX_BTN_LB
  else if str == "rb" || str == "6" || str == "black" || str == "r1" then
    Except.ok XBOX_BTN_RB
  else if str == "lt" || str == "7" || str == "l2" then Except.ok XBOX_BTN_LT
  else if str == "rt" || str == "8" || str == "r2" then Except.ok XBOX_BTN_RT
  else if str == "tl" || str == "l3" then Except.ok XBOX_BTN_THUMB_L
  else if str == "tr" || str == "r3" then Except.ok XBOX_BTN_THUMB_R
  else if str == "du" || str == "up" then Except.ok XBOX_DPAD_UP
  else if str == "dd" || str == "down" then Except.ok XBOX_DPAD_DOWN
  else if str == "dl" || str == "left" then Except.ok XBOX_DPAD_LEFT
  else if str == "dr" || str == "right" then Except.ok XBOX_DPAD_RIGHT
  else Except.error ("couldn't convert string \"" ++ str ++ "\" to XboxButton")

/-- `string2axis` (lines 394-440). The thrown `std::runtime_error` is the result `error`; it
carries the message expression handed to the `raise_exception` macro. -/
def string2axis (str_ : String) : Except String XboxAxis :=
  let str := to_lower str_
  if str == "x1" then Except.ok XBOX_AXIS_X1
  else if str == "y1" then Except.ok XBOX_AXIS_Y1
  else if str == "x2" || str == "whammy" then Except.ok XBOX_AXIS_X2
  else if str == "y2" || str == "tilt" then Except.ok XBOX_AXIS_Y2
  else if str == "lt" || str == "l2" then Except.ok XBOX_AXIS_LT
  else if str == "rt" || str == "r2" then Except.ok XBOX_AXIS_RT
  else if str == "dpad_x" then Except.ok XBOX_AXIS_DPAD_X
  else if str == "dpad_y" then Except.ok XBOX_AXIS_DPAD_Y
  else if str == "trigger" || str == "z" || str == "rudder" then Except.ok XBOX_AXIS_TRIGGER
  else if str == "btn_a" || str == "cross" then Except.ok XBOX_AXIS_A
  else if str == "btn_b" || str == "circle" then Except.ok XBOX_AXIS_B
  else if str == "btn_x" || str == "square" then Except.ok XBOX_AXIS_X
  else if str == "btn_y" || str == "triangle" then Except.ok XBOX_AXIS_Y
  else if str == "white" || str == "lb" || str == "l1" then Except.ok XBOX_AXIS_WHITE
  else if str == "black" || str == "rb" || str == "r1" then Except.ok XBOX_AXIS_BLACK
  else Except.error ("couldn't convert string \"" ++ str ++ "\" to XboxAxis")

/-- `axis2string` (lines 442-471). -/
def axis2string (axis : XboxAxis) : String :=
  match axis with
  | XBOX_AXIS_MAX => "unknown"
  | XBOX_AXIS_UNKNOWN => "unknown"
  | XBOX_AXIS_TRIGGER => "TRIGGER"
  | XBOX_AXIS_DPAD_X => "DPAD_X"
  | XBOX_AXIS_DPAD_Y => "DPAD_Y"
  | XBOX_AXIS_X1 => "X1"
  | XBOX_AXIS_Y1 => "Y1"
  | XBOX_AXIS_X2 => "X2"
  | XBOX_AXIS_Y2 => "Y2"
  | XBOX_AXIS_LT => "LT"
  | XBOX_AXIS_RT => "RT"
  | XBOX_AXIS_A => "BTN_A"
  | XBOX_AXIS_B => "BTN_B"
  | XBOX_AXIS_X => "BTN_X"
  | XBOX_AXIS_Y => "BTN_Y"
  | XBOX_AXIS_BLACK => "Black"
  | XBOX_AXIS_WHITE => "White"

/-- `btn2string` (lines 473-504). -/
def btn2string (btn : XboxButton) : String :=
  match btn with
  | XBOX_BTN_MAX => "unknown"
  | XBOX_BTN_UNKNOWN => "unknown"
  | XBOX_BTN_START => "Start"
  | XBOX_BTN_GUIDE => "Guide"
  | XBOX_BTN_BACK => "Back"
  | XBOX_BTN_A => "A"
  | XBOX_BTN_B => "B"
  | XBOX_BTN_X => "X"
  | XBOX_BTN_Y => "Y"
  | XBOX_BTN_LB => "LB"
  | XBOX_BTN_RB => "RB"
  | XBOX_BTN_LT => "LT"
  | XBOX_BTN_RT => "RT"
  | XBOX_BTN_THUMB_L => "TL"
  | XBOX_BTN_THUMB_R => "TR"
  | XBOX_DPAD_UP => "DPAD_UP"
  | XBOX_DPAD_DOWN => "DPAD_DOWN"
  | XBOX_DPAD_LEFT => "DPAD_LEFT"
  | XBOX_DPAD_RIGHT => "DPAD_RIGHT"

/-- The button aliases: the string literals `string2btn` compares its lower-cased argument
with, in source order. -/
def button_aliases : List String :=
  ["start", "guide", "ps", "back", "select", "a", "1", "green", "cross", "b", "2", "red",
    "circle", "x", "3", "blue", "square", "y", "4", "yellow", "triangle", "lb", "5", "orange",
    "white", "l1", "rb", "6", "black", "r1", "lt", "7", "l2", "rt", "8", "r2", "tl", "l3", "tr",
    "r3", "du", "up", "dd", "down", "dl", "left", "dr", "right"]

/-- The axis aliases: the string literals `string2axis` compares its lower-cased argument
with, in source order. -/
def axis_aliases : List String :=
  ["x1", "y1", "x2", "whammy", "y2", "tilt", "lt", "l2", "rt", "r2", "dpad_x", "dpad_y",
    "trigger", "z", "rudder", "btn_a", "cross", "btn_b", "circle", "btn_x", "square", "btn_y",
    "triangle", "white", "lb", "l1", "black", "rb", "r1"]

/-- The error message contains the string `part`: the characters of `part` occur
contiguously in `msg`. -/
def occursIn (part msg : String) : Prop :=
  part.data <:+: msg.data

/-! ## Call sequences -/

/-- One call of a mutating member function of the snapshot. -/
inductive Op (R : Type) where
  | clear
  | set_button (button : XboxButton) (v : Bool)
  | set_axis (axis : XboxAxis) (v : Int)
  | set_axis_float (axis : XboxAxis) (v : R)

/-- The effect of one call on a snapshot; `none` when the call hits an assertion. -/
def Op.step {R : Type} (from_float : R → Int → Int → Int) (s : XboxGenericMsg) :
    Op R → Option XboxGenericMsg
  | Op.clear => some s.clear
  | Op.set_button b v => some (s.set_button b v)
  | Op.set_axis a v => some (s.set_axis a v)
  | Op.set_axis_float a v => s.set_axis_float from_float a v

/-- The effect of a sequence of calls, first call first; `none` as soon as one call hits an
assertion. -/
def run {R : Type} (from_float : R → Int → Int → Int) :
    List (Op R) → XboxGenericMsg → Option XboxGenericMsg
  | [], s => some s
  | op :: ops, s =>
    match op.step from_float s with
    | some s' => run from_float ops s'
    | none => none

/-- Every `set_axis_float` call of the sequence names a defined axis. -/
def floatsDefined {R : Type} (ops : List (Op R)) : Prop :=
  ∀ a v, Op.set_axis_float a v ∈ ops → a.defined = true

/-- The call is a `set_button`, or a `set_axis` on an axis other than `a`. -/
def Op.sparesAxis {R : Type} (a : XboxAxis) : Op R → Bool
  | Op.set_button _ _ => true
  | Op.set_axis a' _ => decide (a' ≠ a)
  | _ => false

/-- The call is a `set_axis`, or a `set_button` on a button other than `b`. -/
def Op.sparesButton {R : Type} (b : XboxButton) : Op R → Bool
  | Op.set_axis _ _ => true
  | Op.set_button b' _ => decide (b' ≠ b)
  | _ => false

/-- Bookkeeping of one call for button `b`: `none` after a `clear`, `some v` after
`set_button(b, v)`, unchanged otherwise. -/
def trackButton {R : Type} (b : XboxButton) (acc : Option Bool) : Op R → Option Bool
  | Op.clear => none
  | Op.set_button b' v => if b' = b then some v else acc
  | _ => acc

/-- The value button `b` was last set to by `set_button` since the last `clear` of the
sequence (or since its start), `none` if there was no such `set_button` call. -/
def lastButton {R : Type} (b : XboxButton) (ops : List (Op R)) : Option Bool :=
  ops.foldl (trackButton b) none

/-- Bookkeeping of one call for axis `a`: `false` after a `clear`, `true` after
`set_axis(a, _)`, unchanged otherwise. -/
def trackAxisSet {R : Type} (a : XboxAxis) (acc : Bool) : Op R → Bool
  | Op.clear => false
  | Op.set_axis a' _ => if a' = a then true else acc
  | _ => acc

/-- Whether `set_axis` was called on axis `a` since the last `clear` of the sequence (or since
its start). -/
def axisWasSet {R : Type} (a : XboxAxis) (ops : List (Op R)) : Bool :=
  ops.foldl (trackAxisSet a) false

/-- Button `b` is pressed after the sequence: it was last set to `true`. -/
def pressed {R : Type} (b : XboxButton) (ops : List (Op R)) : Bool :=
  lastButton b ops == some true

/-- Storage whose every byte is zero, used as the memory a snapshot is constructed in. -/
def zeroed : XboxGenericMsg :=
  { m_axis_state := fun _ => 0
    m_button_state := fun _ => false
    m_axis_set := fun _ => false
    m_button_set := fun _ => false }

/-- Two snapshots carry the same set data: they have the same is-set flag for every axis and
every button, and the same stored value on every axis and every button that is set. The
stored values of unset fields are unconstrained. -/
def sameSetData (s1 s2 : XboxGenericMsg) : Prop :=
  (∀ a, s1.m_axis_set a = s2.m_axis_set a) ∧
  (∀ b, s1.m_button_set b = s2.m_button_set b) ∧
  (∀ a, s1.m_axis_set a = true → s1.m_axis_state a = s2.m_axis_state a) ∧
  (∀ b, s1.m_button_set b = true → s1.m_button_state b = s2.m_button_state b)

/-- The call keeps axis values in range: a `clear`, a `set_button`, or a `set_axis(a, v)` on
an axis with static bounds and `get_axis_min(a) <= v <= get_axis_max(a)`. -/
def Op.inRange {R : Type} : Op R → Bool
  | Op.clear => true
  | Op.set_button _ _ => true
  | Op.set_axis a v =>
    match get_axis_min a, get_axis_max a with
    | some lo, some hi => decide (lo ≤ v ∧ v ≤ hi)
    | _, _ => false
  | Op.set_axis_float _ _ => false

/-! ## Value normalisers -/

/-- The C conversion of an `int` to `int16_t`: reduction to the 16-bit two's complement
range. -/
def int16_wrap (x : Int) : Int :=
  (x + 32768) % 65536 - 32768

/-- The `int` expression that `u8_to_s16` (lines 26-37) returns, before its conversion to
`int16_t`. The parameter is a `uint8_t` (the argument reduced modulo 256), promoted to `int`;
`/` is the truncating C division. -/
def u8_to_s16_int (value : Nat) : Int :=
  if value % 256 < 128 then
    -32768 + Int.tdiv (((value % 256 : Nat) : Int) * 32768) 128
  else
    Int.tdiv ((((value % 256 : Nat) : Int) - 128) * 32767) 127

/-- `u8_to_s16` (lines 26-37): the returned `int` converted to `int16_t`. -/
def u8_to_s16 (value : Nat) : Int :=
  int16_wrap (u8_to_s16_int value)

/-- The truncation toward zero of a rational: the integer part that the C conversion of a
floating-point value to an integer type keeps. -/
def float_to_int (x : ℚ) : Int :=
  if 0 ≤ x then ⌊x⌋ else ⌈x⌉

/-- Rounding of a rational to the nearest integer, ties to the even integer. -/
def round_half_even (y : ℚ) : Int :=
  if y - ⌊y⌋ < 1 / 2 then ⌊y⌋
  else if 1 / 2 < y - ⌊y⌋ then ⌊y⌋ + 1
  else if ⌊y⌋ % 2 = 0 then ⌊y⌋
  else ⌊y⌋ + 1

/-- The spacing of the binary32 numbers around `x`: `2 ^ (e - 23)` on the binade
`2 ^ e <= |x| < 2 ^ (e + 1)` (24 significant bits), and `2 ^ (-149)` below `2 ^ (-126)`
(subnormal numbers and zero). -/
def binary32_ulp (x : ℚ) : ℚ :=
  (2 : ℚ) ^ (max (Int.log 2 |x|) (-126) - 23)

/-- The binary32 number nearest to the rational `x`, ties to the even significand (the IEEE-754
default rounding), before the overflow test. -/
def binary32_round (x : ℚ) : ℚ :=
  round_half_even (x / binary32_ulp x) * binary32_ulp x

/-- A value of the C type `float` (IEEE-754 binary32): a finite value, given by the rational it
denotes (the sign of a zero is not kept: it changes no comparison and no result below), an
infinity, or a NaN. -/
inductive Float32 where
  | finite (q : ℚ)
  | pos_inf
  | neg_inf
  | nan

open Float32

/-- The comparison `a < b` of two `float`s; every comparison with a NaN is false. -/
def Float32.lt : Float32 → Float32 → Bool
  | finite a, finite b => decide (a < b)
  | nan, _ => false
  | _, nan => false
  | neg_inf, neg_inf => false
  | neg_inf, _ => true
  | _, neg_inf => false
  | pos_inf, _ => false
  | finite _, pos_inf => true

/-- The comparison `a >= b` of two `float`s; every comparison with a NaN is false. -/
def Float32.ge : Float32 → Float32 → Bool
  | nan, _ => false
  | _, nan => false
  | a, b => !(Float32.lt a b)

/-- The function `std::min(a, b)` of the C++ library: `(b < a) ? b : a`. -/
def std_min (a b : Float32) : Float32 :=
  if Float32.lt b a then b else a

/-- The function `std::max(a, b)` of the C++ library: `(a < b) ? b : a`. -/
def std_max (a b : Float32) : Float32 :=
  if Float32.lt a b then b else a

/-- The `float` that a rounded result denotes: an infinity when its magnitude reaches
`2 ^ 128`, the finite value otherwise. -/
def Float32.of_rounded (r : ℚ) : Float32 :=
  if (2 : ℚ) ^ 128 ≤ r then pos_inf
  else if r ≤ -(2 : ℚ) ^ 128 then neg_inf
  else finite r

/-- The product `a * b` of two `float`s, evaluated in binary32: the exact product of two finite
values rounded to the nearest binary32 number; NaN for a NaN operand and for zero times an
infinity; a signed infinity otherwise. -/
def Float32.mul : Float32 → Float32 → Float32
  | finite a, finite b => Float32.of_rounded (binary32_round (a * b))
  | nan, _ => nan
  | _, nan => nan
  | finite a, pos_inf => if a = 0 then nan else if 0 < a then pos_inf else neg_inf
  | finite a, neg_inf => if a = 0 then nan else if 0 < a then neg_inf else pos_inf
  | pos_inf, finite b => if b = 0 then nan else if 0 < b then pos_inf else neg_inf
  | neg_inf, finite b => if b = 0 then nan else if 0 < b then neg_inf else pos_inf
  | pos_inf, pos_inf => pos_inf
  | pos_inf, neg_inf => neg_inf
  | neg_inf, pos_inf => neg_inf
  | neg_inf, neg_inf => pos_inf

/-- The conversion `static_cast<int16_t>` of a `float`: the value truncated toward zero;
`none` (undefined behaviour) when the truncated value is not an `int16_t`, and for an
infinity or a NaN. -/
def float_to_int16 : Float32 → Option Int
  | finite q =>
    if -32768 ≤ float_to_int q ∧ float_to_int q ≤ 32767 then some (float_to_int q) else none
  | _ => none

/-- `float_to_s16` (lines 60-70): the comparison `v >= 0.0f`, `std::min(1.0f, v)` or
`std::max(-1.0f, v)`, the `float` product with `32767.0f` or `32768.0f`, and the conversion
to `int16_t`. -/
def float_to_s16 (v : Float32) : Option Int :=
  if Float32.ge v (finite 0) then
    float_to_int16 (Float32.mul (std_min (finite 1) v) (finite 32767))
  else
    float_to_int16 (Float32.mul (std_max (finite (-1)) v) (finite 32768))

/-- The float-to-word rule in the words of the specification, to compare `float_to_s16` with:
`round(min(1.0, v) * 32767)` for `v >= 0` and `round(max(-1.0, v) * 32768)` for `v < 0`, over
exact rational values, `round` being rounding to the nearest integer. -/
def float_to_s16_rounding (v : ℚ) : Int :=
  if v ≥ 0 then
    round (min 1 v * 32767)
  else
    round (max (-1) v * 32768)

/-! ## Basic facts -/

theorem int_wrap_of_range (x : Int) (h1 : -2147483648 ≤ x) (h2 : x ≤ 2147483647) :
    int_wrap x = x := by
  unfold int_wrap
  omega

theorem int_wrap_neg_add (a b : Int) : int_wrap (int_wrap (-a) + b) = int_wrap (b - a) := by
  unfold int_wrap
  omega

theorem get_axis_of_set (s : XboxGenericMsg) (a : XboxAxis) (h : s.m_axis_set a = true) :
    s.get_axis a = s.m_axis_state a := by
  unfold XboxGenericMsg.get_axis
  simp [h]

theorem get_button_of_set (s : XboxGenericMsg) (b : XboxButton)
    (h : s.m_button_set b = true) : s.get_button b = s.m_button_state b := by
  unfold XboxGenericMsg.get_button
  simp [h]

theorem get_axis_trigger_unset (s : XboxGenericMsg)
    (h : s.m_axis_set XBOX_AXIS_TRIGGER = false) :
    s.get_axis XBOX_AXIS_TRIGGER
      = int_wrap (int_wrap (-(s.get_axis XBOX_AXIS_LT)) + s.get_axis XBOX_AXIS_RT) := by
  conv_lhs => unfold XboxGenericMsg.get_axis
  simp [h]

theorem get_axis_lt_unset (s : XboxGenericMsg) (h : s.m_axis_set XBOX_AXIS_LT = false) :
    s.get_axis XBOX_AXIS_LT = bool_to_int (s.m_button_state XBOX_BTN_LT) * 255 := by
  rw [XboxGenericMsg.get_axis]
  simp [h]

theorem get_axis_rt_unset (s : XboxGenericMsg) (h : s.m_axis_set XBOX_AXIS_RT = false) :
    s.get_axis XBOX_AXIS_RT = bool_to_int (s.m_button_state XBOX_BTN_RT) * 255 := by
  rw [XboxGenericMsg.get_axis]
  simp [h]

/-! ## Call sequences that leave one control alone -/

theorem run_spares_axis {R : Type} (from_float : R → Int → Int → Int) (a : XboxAxis) (v : Int) :
    ∀ (ops : List (Op R)) (s : XboxGenericMsg), (∀ op ∈ ops, op.sparesAxis a = true) →
      s.m_axis_set a = true → s.m_axis_state a = v →
      ∃ s', run from_float ops s = some s' ∧ s'.m_axis_set a = true ∧ s'.m_axis_state a = v := by
  intro ops
  induction ops with
  | nil => intro s _ h1 h2; exact ⟨s, rfl, h1, h2⟩
  | cons op ops ih =>
    intro s hall h1 h2
    have hop := hall op (List.mem_cons_self _ _)
    have hrest : ∀ o ∈ ops, o.sparesAxis a = true :=
      fun o ho => hall o (List.mem_cons_of_mem _ ho)
    cases op with
    | clear => simp [Op.sparesAxis] at hop
    | set_axis_float a' x => simp [Op.sparesAxis] at hop
    | set_button b w =>
      simp only [run, Op.step]
      exact ih (s.set_button b w) hrest h1 h2
    | set_axis a' w =>
      have hne : a ≠ a' := by
        intro h
        simp [Op.sparesAxis, h] at hop
      simp only [run, Op.step]
      refine ih (s.set_axis a' w) hrest ?_ ?_
      · simp [XboxGenericMsg.set_axis, Function.update_noteq hne, h1]
      · simp [XboxGenericMsg.set_axis, Function.update_noteq hne, h2]

theorem run_spares_button {R : Type} (from_float : R → Int → Int → Int) (b : XboxButton)
    (v : Bool) :
    ∀ (ops : List (Op R)) (s : XboxGenericMsg), (∀ op ∈ ops, op.sparesButton b = true) →
      s.m_button_set b = true → s.m_button_state b = v →
      ∃ s', run from_float ops s = some s' ∧ s'.m_button_set b = true
        ∧ s'.m_button_state b = v := by
  intro ops
  induction ops with
  | nil => intro s _ h1 h2; exact ⟨s, rfl, h1, h2⟩
  | cons op ops ih =>
    intro s hall h1 h2
    have hop := hall op (List.mem_cons_self _ _)
    have hrest : ∀ o ∈ ops, o.sparesButton b = true :=
      fun o ho => hall o (List.mem_cons_of_mem _ ho)
    cases op with
    | clear => simp [Op.sparesButton] at hop
    | set_axis_float a' x => simp [Op.sparesButton] at hop
    | set_axis a' w =>
      simp only [run, Op.step]
      exact ih (s.set_axis a' w) hrest h1 h2
    | set_button b' w =>
      have hne : b ≠ b' := by
        intro h
        simp [Op.sparesButton, h] at hop
      simp only [run, Op.step]
      refine ih (s.set_button b' w) hrest ?_ ?_
      · simp [XboxGenericMsg.set_button, Function.update_noteq hne, h1]
      · simp [XboxGenericMsg.set_button, Function.update_noteq hne, h2]

/-! ## Bookkeeping of call sequences -/

theorem set_axis_float_some {R : Type} (from_float : R → Int → Int → Int)
    (s s1 : XboxGenericMsg) (a : XboxAxis) (x : R)
    (h : s.set_axis_float from_float a x = some s1) :
    s1.m_button_state = s.m_button_state ∧ s1.m_button_set = s.m_button_set
      ∧ s1.m_axis_set = s.m_axis_set := by
  unfold XboxGenericMsg.set_axis_float at h
  split at h
  · cases h
    exact ⟨rfl, rfl, rfl⟩
  · cases h

theorem set_axis_float_defined {R : Type} (from_float : R → Int → Int → Int)
    (s : XboxGenericMsg) (a : XboxAxis) (x : R) (h : a.defined = true) :
    ∃ s1, s.set_axis_float from_float a x = some s1 := by
  cases a <;> first | exact ⟨_, rfl⟩ | exact absurd h (by decide)

theorem run_total {R : Type} (from_float : R → Int → Int → Int) :
    ∀ (ops : List (Op R)) (s : XboxGenericMsg), floatsDefined ops →
      ∃ s', run from_float ops s = some s' := by
  intro ops
  induction ops with
  | nil => intro s _; exact ⟨s, rfl⟩
  | cons op ops ih =>
    intro s hdef
    have hrest : floatsDefined ops := fun a v h => hdef a v (List.mem_cons_of_mem _ h)
    cases op with
    | clear => simpa only [run, Op.step] using ih s.clear hrest
    | set_button b w => simpa only [run, Op.step] using ih (s.set_button b w) hrest
    | set_axis a w => simpa only [run, Op.step] using ih (s.set_axis a w) hrest
    | set_axis_float a x =>
      obtain ⟨s1, h1⟩ :=
        set_axis_float_defined from_float s a x (hdef a x (List.mem_cons_self _ _))
      simpa only [run, Op.step, h1] using ih s1 hrest

theorem run_button_track {R : Type} (from_float : R → Int → Int → Int) (b : XboxButton) :
    ∀ (ops : List (Op R)) (s s' : XboxGenericMsg) (acc : Option Bool),
      s.m_button_set b = acc.isSome → s.m_button_state b = acc.getD false →
      run from_float ops s = some s' →
      s'.m_button_set b = (ops.foldl (trackButton b) acc).isSome
        ∧ s'.m_button_state b = (ops.foldl (trackButton b) acc).getD false := by
  intro ops
  induction ops with
  | nil =>
    intro s s' acc h1 h2 hrun
    simp only [run, Option.some.injEq] at hrun
    subst hrun
    exact ⟨h1, h2⟩
  | cons op ops ih =>
    intro s s' acc h1 h2 hrun
    cases op with
    | clear =>
      simp only [run, Op.step] at hrun
      exact ih s.clear s' none rfl rfl hrun
    | set_button b' w =>
      simp only [run, Op.step] at hrun
      simp only [List.foldl_cons, trackButton]
      by_cases hb : b' = b
      · subst hb
        simp only [if_true]
        exact ih _ s' (some w) (by simp [XboxGenericMsg.set_button])
          (by simp [XboxGenericMsg.set_button]) hrun
      · simp only [if_neg hb]
        refine ih _ s' acc ?_ ?_ hrun
        · simp [XboxGenericMsg.set_button, Function.update_noteq (Ne.symm hb), h1]
        · simp [XboxGenericMsg.set_button, Function.update_noteq (Ne.symm hb), h2]
    | set_axis a w =>
      simp only [run, Op.step] at hrun
      exact ih (s.set_axis a w) s' acc h1 h2 hrun
    | set_axis_float a x =>
      simp only [run, Op.step] at hrun
      cases hs : s.set_axis_float from_float a x with
      | none => simp [hs] at hrun
      | some s1 =>
        simp only [hs] at hrun
        obtain ⟨e1, e2, _⟩ := set_axis_float_some from_float s s1 a x hs
        exact ih s1 s' acc (by rw [e2]; exact h1) (by rw [e1]; exact h2) hrun

theorem run_axis_set_track {R : Type} (from_float : R → Int → Int → Int) (a : XboxAxis) :
    ∀ (ops : List (Op R)) (s s' : XboxGenericMsg) (acc : Bool),
      s.m_axis_set a = acc → run from_float ops s = some s' →
      s'.m_axis_set a = ops.foldl (trackAxisSet a) acc := by
  intro ops
  induction ops with
  | nil =>
    intro s s' acc h1 hrun
    simp only [run, Option.some.injEq] at hrun
    subst hrun
    exact h1
  | cons op ops ih =>
    intro s s' acc h1 hrun
    cases op with
    | clear =>
      simp only [run, Op.step] at hrun
      exact ih s.clear s' false rfl hrun
    | set_button b w =>
      simp only [run, Op.step] at hrun
      exact ih (s.set_button b w) s' acc h1 hrun
    | set_axis a' w =>
      simp only [run, Op.step] at hrun
      simp only [List.foldl_cons, trackAxisSet]
      by_cases ha : a' = a
      · subst ha
        simp only [if_true]
        exact ih _ s' true (by simp [XboxGenericMsg.set_axis]) hrun
      · simp only [if_neg ha]
        refine ih _ s' acc ?_ hrun
        simp [XboxGenericMsg.set_axis, Function.update_noteq (Ne.symm ha), h1]
    | set_axis_float a' x =>
      simp only [run, Op.step] at hrun
      cases hs : s.set_axis_float from_float a' x with
      | none => simp [hs] at hrun
      | some s1 =>
        simp only [hs] at hrun
        obtain ⟨_, _, e3⟩ := set_axis_float_some from_float s s1 a' x hs
        exact ih s1 s' acc (by rw [e3]; exact h1) hrun

theorem reachable_button {R : Type} (from_float : R → Int → Int → Int) (u : XboxGenericMsg)
    (ops : List (Op R)) (s : XboxGenericMsg)
    (hrun : run from_float ops (XboxGenericMsg.ctor u) = some s) (b : XboxButton) :
    s.m_button_set b = (lastButton b ops).isSome
      ∧ s.m_button_state b = (lastButton b ops).getD false :=
  run_button_track from_float b ops _ s none rfl rfl hrun

theorem reachable_axis_set {R : Type} (from_float : R → Int → Int → Int) (u : XboxGenericMsg)
    (ops : List (Op R)) (s : XboxGenericMsg)
    (hrun : run from_float ops (XboxGenericMsg.ctor u) = some s) (a : XboxAxis) :
    s.m_axis_set a = axisWasSet a ops :=
  run_axis_set_track from_float a ops _ s false rfl hrun

theorem reachable_button_state {R : Type} (from_float : R → Int → Int → Int)
    (u : XboxGenericMsg) (ops : List (Op R)) (s : XboxGenericMsg)
    (hrun : run from_float ops (XboxGenericMsg.ctor u) = some s) (b : XboxButton) :
    s.m_button_state b = pressed b ops := by
  rw [(reachable_button from_float u ops s hrun b).2]
  unfold pressed
  cases lastButton b ops with
  | none => rfl
  | some w => cases w <;> rfl

theorem get_axis_dpad_x_unset (s : XboxGenericMsg)
    (h : s.m_axis_set XBOX_AXIS_DPAD_X = false) :
    s.get_axis XBOX_AXIS_DPAD_X
      = if s.m_button_state XBOX_DPAD_LEFT && !s.m_button_state XBOX_DPAD_RIGHT then -1
        else if !s.m_button_state XBOX_DPAD_LEFT && s.m_button_state XBOX_DPAD_RIGHT then 1
        else 0 := by
  rw [XboxGenericMsg.get_axis]
  simp [h]

theorem get_axis_dpad_y_unset (s : XboxGenericMsg)
    (h : s.m_axis_set XBOX_AXIS_DPAD_Y = false) :
    s.get_axis XBOX_AXIS_DPAD_Y
      = if s.m_button_state XBOX_DPAD_UP && !s.m_button_state XBOX_DPAD_DOWN then -1
        else if !s.m_button_state XBOX_DPAD_UP && s.m_button_state XBOX_DPAD_DOWN then 1
        else 0 := by
  rw [XboxGenericMsg.get_axis]
  simp [h]

/-! ## Setter precedence -/

/-- C1 (setter precedence): for every snapshot `s`, every axis `a` (so every defined one
too) and integer `v`, after `set_axis(a, v)` followed by any sequence of `set_button`
calls and of `set_axis` calls on axes other than `a`, the sequence runs to a snapshot on which
`get_axis(a)` is exactly `v`; likewise after `set_button(b, v)` followed by any sequence of
`set_axis` calls and of `set_button` calls on buttons other than `b`, `get_button(b)` is
exactly `v`. -/
theorem setter_precedence {R : Type} (from_float : R → Int → Int → Int) (s : XboxGenericMsg)
    (ops : List (Op R)) :
    (∀ (a : XboxAxis) (v : Int), (∀ op ∈ ops, op.sparesAxis a = true) →
      ∃ s', run from_float ops (s.set_axis a v) = some s' ∧ s'.get_axis a = v) ∧
    (∀ (b : XboxButton) (v : Bool), (∀ op ∈ ops, op.sparesButton b = true) →
      ∃ s', run from_float ops (s.set_button b v) = some s' ∧ s'.get_button b = v) := by
  constructor
  · intro a v hall
    obtain ⟨s', hrun, h1, h2⟩ := run_spares_axis from_float a v ops (s.set_axis a v) hall
      (by simp [XboxGenericMsg.set_axis]) (by simp [XboxGenericMsg.set_axis])
    exact ⟨s', hrun, by rw [get_axis_of_set s' a h1, h2]⟩
  · intro b v hall
    obtain ⟨s', hrun, h1, h2⟩ := run_spares_button from_float b v ops (s.set_button b v) hall
      (by simp [XboxGenericMsg.set_button]) (by simp [XboxGenericMsg.set_button])
    exact ⟨s', hrun, by rw [get_button_of_set s' b h1, h2]⟩

/-- Witness for C1: on a new snapshot, `set_axis(LT, 42)` followed by `set_button(LT, false)`,
`set_axis(RT, 7)`, `set_button(RT, true)` leaves `get_axis(LT) = 42`, although the button rule
for LT would give 0; and `set_button(DPAD_UP, true)` followed by `set_axis(DPAD_Y, 1)`,
`set_button(DPAD_DOWN, true)` leaves `get_button(DPAD_UP) = true`, although the axis rule for
DPAD_UP would give `false`. -/
theorem setter_precedence_witness :
    ((∀ op ∈ [Op.set_button XBOX_BTN_LT false, Op.set_axis XBOX_AXIS_RT 7,
        (Op.set_button XBOX_BTN_RT true : Op ℚ)], op.sparesAxis XBOX_AXIS_LT = true) ∧
      ∃ s', run (fun (_ : ℚ) (lo _ : Int) => lo)
          [Op.set_button XBOX_BTN_LT false, Op.set_axis XBOX_AXIS_RT 7,
            Op.set_button XBOX_BTN_RT true]
          ((XboxGenericMsg.ctor zeroed).set_axis XBOX_AXIS_LT 42) = some s'
        ∧ s'.get_axis XBOX_AXIS_LT = 42) ∧
    ((∀ op ∈ [Op.set_axis XBOX_AXIS_DPAD_Y 1, (Op.set_button XBOX_DPAD_DOWN true : Op ℚ)],
        op.sparesButton XBOX_DPAD_UP = true) ∧
      ∃ s', run (fun (_ : ℚ) (lo _ : Int) => lo)
          [Op.set_axis XBOX_AXIS_DPAD_Y 1, Op.set_button XBOX_DPAD_DOWN true]
          ((XboxGenericMsg.ctor zeroed).set_button XBOX_DPAD_UP true) = some s'
        ∧ s'.get_button XBOX_DPAD_UP = true) :=
  ⟨⟨by simp [Op.sparesAxis],
      (setter_precedence _ _ _).1 XBOX_AXIS_LT 42 (by simp [Op.sparesAxis])⟩,
    ⟨by simp [Op.sparesButton],
      (setter_precedence _ _ _).2 XBOX_DPAD_UP true (by simp [Op.sparesButton])⟩⟩

/-! ## The combined trigger axis -/

/-- C2 (TRIGGER derivation): for every snapshot in which the TRIGGER axis has not been set,
`get_axis(TRIGGER)` is the C `int` difference `get_axis(RT) - get_axis(LT)`, both read through
`get_axis`; it is the exact integer difference whenever that difference is a C `int`. On a new
snapshot, after `set_axis(LT, 255)` alone `get_axis(TRIGGER) = -255`, and after
`set_button(RT, true)` alone `get_axis(TRIGGER) = 255`. -/
theorem trigger_is_rt_minus_lt :
    (∀ s : XboxGenericMsg, s.m_axis_set XBOX_AXIS_TRIGGER = false →
      s.get_axis XBOX_AXIS_TRIGGER
          = int_wrap (s.get_axis XBOX_AXIS_RT - s.get_axis XBOX_AXIS_LT) ∧
        (-2147483648 ≤ s.get_axis XBOX_AXIS_RT - s.get_axis XBOX_AXIS_LT →
          s.get_axis XBOX_AXIS_RT - s.get_axis XBOX_AXIS_LT ≤ 2147483647 →
          s.get_axis XBOX_AXIS_TRIGGER
            = s.get_axis XBOX_AXIS_RT - s.get_axis XBOX_AXIS_LT)) ∧
    (∀ u : XboxGenericMsg,
      ((XboxGenericMsg.ctor u).set_axis XBOX_AXIS_LT 255).get_axis XBOX_AXIS_TRIGGER = -255) ∧
    (∀ u : XboxGenericMsg,
      ((XboxGenericMsg.ctor u).set_button XBOX_BTN_RT true).get_axis XBOX_AXIS_TRIGGER
        = 255) := by
  refine ⟨?_, ?_, ?_⟩
  · intro s h
    have heq := get_axis_trigger_unset s h
    rw [int_wrap_neg_add] at heq
    refine ⟨heq, ?_⟩
    intro h1 h2
    rw [heq, int_wrap_of_range _ h1 h2]
  · intro u
    simp [XboxGenericMsg.get_axis, XboxGenericMsg.ctor, XboxGenericMsg.clear,
      XboxGenericMsg.set_axis, bool_to_int, int_wrap]
  · intro u
    simp [XboxGenericMsg.get_axis, XboxGenericMsg.ctor, XboxGenericMsg.clear,
      XboxGenericMsg.set_button, bool_to_int, int_wrap]

/-- Witness for C2: the snapshot obtained from a new one by `set_axis(RT, 200)` and
`set_axis(LT, 50)` has TRIGGER unset, and there `get_axis(TRIGGER)` is the difference of
`get_axis(RT)` and `get_axis(LT)`. -/
theorem trigger_is_rt_minus_lt_witness :
    (((XboxGenericMsg.ctor zeroed).set_axis XBOX_AXIS_RT 200).set_axis
        XBOX_AXIS_LT 50).m_axis_set XBOX_AXIS_TRIGGER = false ∧
    (((XboxGenericMsg.ctor zeroed).set_axis XBOX_AXIS_RT 200).set_axis
        XBOX_AXIS_LT 50).get_axis XBOX_AXIS_TRIGGER
      = int_wrap
          ((((XboxGenericMsg.ctor zeroed).set_axis XBOX_AXIS_RT 200).set_axis
              XBOX_AXIS_LT 50).get_axis XBOX_AXIS_RT
            - (((XboxGenericMsg.ctor zeroed).set_axis XBOX_AXIS_RT 200).set_axis
              XBOX_AXIS_LT 50).get_axis XBOX_AXIS_LT) :=
  ⟨by simp [XboxGenericMsg.ctor, XboxGenericMsg.clear, XboxGenericMsg.set_axis],
    (trigger_is_rt_minus_lt.1 _
      (by simp [XboxGenericMsg.ctor, XboxGenericMsg.clear, XboxGenericMsg.set_axis])).1⟩

/-! ## Analog-to-digital derivation -/

/-- C3 (analog-to-digital derivation): for every snapshot in which button `b` is not set and
its paired axis is set and holds the integer `v`, `get_button(b)` is `v != 0` for `b` among
A, B, X, Y, LT, RT (paired with the axis of the same name, for every `v`, negative ones
included), `get_button(DPAD_LEFT)` is `v < 0` and `get_button(DPAD_RIGHT)` is `v > 0` for the
axis DPAD_X, and `get_button(DPAD_UP)` is `v < 0` and `get_button(DPAD_DOWN)` is `v > 0` for
the axis DPAD_Y. On a new snapshot after `set_axis(LT, 255)`, `get_button(LT)` is true. -/
theorem analog_to_digital :
    (∀ (s : XboxGenericMsg) (v : Int),
      (∀ p ∈ [(XBOX_BTN_A, XBOX_AXIS_A), (XBOX_BTN_B, XBOX_AXIS_B), (XBOX_BTN_X, XBOX_AXIS_X),
          (XBOX_BTN_Y, XBOX_AXIS_Y), (XBOX_BTN_LT, XBOX_AXIS_LT), (XBOX_BTN_RT, XBOX_AXIS_RT)],
        s.m_button_set p.1 = false → s.m_axis_set p.2 = true → s.m_axis_state p.2 = v →
          s.get_button p.1 = decide (v ≠ 0)) ∧
      (s.m_button_set XBOX_DPAD_LEFT = false → s.m_axis_set XBOX_AXIS_DPAD_X = true →
        s.m_axis_state XBOX_AXIS_DPAD_X = v → s.get_button XBOX_DPAD_LEFT = decide (v < 0)) ∧
      (s.m_button_set XBOX_DPAD_RIGHT = false → s.m_axis_set XBOX_AXIS_DPAD_X = true →
        s.m_axis_state XBOX_AXIS_DPAD_X = v → s.get_button XBOX_DPAD_RIGHT = decide (v > 0)) ∧
      (s.m_button_set XBOX_DPAD_UP = false → s.m_axis_set XBOX_AXIS_DPAD_Y = true →
        s.m_axis_state XBOX_AXIS_DPAD_Y = v → s.get_button XBOX_DPAD_UP = decide (v < 0)) ∧
      (s.m_button_set XBOX_DPAD_DOWN = false → s.m_axis_set XBOX_AXIS_DPAD_Y = true →
        s.m_axis_state XBOX_AXIS_DPAD_Y = v → s.get_button XBOX_DPAD_DOWN = decide (v > 0))) ∧
    (∀ u : XboxGenericMsg,
      ((XboxGenericMsg.ctor u).set_axis XBOX_AXIS_LT 255).get_button XBOX_BTN_LT = true) := by
  refine ⟨?_, ?_⟩
  · intro s v
    refine ⟨?_, ?_, ?_, ?_, ?_⟩
    · intro p hp hb _ hv
      simp only [List.mem_cons, List.mem_singleton, List.not_mem_nil, or_false] at hp
      rcases hp with rfl | rfl | rfl | rfl | rfl | rfl <;>
        simp_all [XboxGenericMsg.get_button, int_to_bool]
    all_goals
      intro hb _ hv
      simp [XboxGenericMsg.get_button, hb, hv]
  · intro u
    simp [XboxGenericMsg.get_button, XboxGenericMsg.ctor, XboxGenericMsg.clear,
      XboxGenericMsg.set_axis, int_to_bool]

/-- Witness for C3: the snapshot obtained from a new one by `set_axis(DPAD_X, -1)` has
DPAD_LEFT unset and DPAD_X set to -1, and `get_button(DPAD_LEFT)` is `-1 < 0` there; the
snapshot obtained by `set_axis(A, -3)` has `get_button(A) = (-3 != 0)`. -/
theorem analog_to_digital_witness :
    (((XboxGenericMsg.ctor zeroed).set_axis XBOX_AXIS_DPAD_X (-1)).m_button_set
        XBOX_DPAD_LEFT = false ∧
      ((XboxGenericMsg.ctor zeroed).set_axis XBOX_AXIS_DPAD_X (-1)).m_axis_set
        XBOX_AXIS_DPAD_X = true ∧
      ((XboxGenericMsg.ctor zeroed).set_axis XBOX_AXIS_DPAD_X (-1)).m_axis_state
        XBOX_AXIS_DPAD_X = -1 ∧
      ((XboxGenericMsg.ctor zeroed).set_axis XBOX_AXIS_DPAD_X (-1)).get_button XBOX_DPAD_LEFT
        = decide ((-1 : Int) < 0)) ∧
    ((XboxGenericMsg.ctor zeroed).set_axis XBOX_AXIS_A (-3)).get_button XBOX_BTN_A
      = decide ((-3 : Int) ≠ 0) :=
  ⟨⟨by simp [XboxGenericMsg.ctor, XboxGenericMsg.clear, XboxGenericMsg.set_axis],
      by simp [XboxGenericMsg.set_axis],
      by simp [XboxGenericMsg.set_axis],
      (analog_to_digital.1 _ (-1)).2.1
        (by simp [XboxGenericMsg.ctor, XboxGenericMsg.clear, XboxGenericMsg.set_axis])
        (by simp [XboxGenericMsg.set_axis]) (by simp [XboxGenericMsg.set_axis])⟩,
    (analog_to_digital.1 _ (-3)).1 (XBOX_BTN_A, XBOX_AXIS_A) (by simp)
      (by simp [XboxGenericMsg.ctor, XboxGenericMsg.clear, XboxGenericMsg.set_axis])
      (by simp [XboxGenericMsg.set_axis]) (by simp [XboxGenericMsg.set_axis])⟩

/-! ## Digital-to-analog derivation -/

/-- C4 (LT/RT from the trigger buttons): every sequence of `clear`, `set_button`, `set_axis`
and `set_axis_float` calls (the float calls on defined axes) runs from a new snapshot to a
snapshot on which, for `t` either LT or RT, if `set_axis` was not called on axis `t` (since the
last `clear`, if any), `get_axis(t)` is 255 when the trigger button of the same name was last
set to `true` and 0 when it was last set to `false` or never set. On a new snapshot after
`set_button(RT, true)`, `get_axis(RT) = 255`. -/
theorem trigger_axis_from_button {R : Type} (from_float : R → Int → Int → Int)
    (u : XboxGenericMsg) (ops : List (Op R)) (hdef : floatsDefined ops) :
    (∃ s, run from_float ops (XboxGenericMsg.ctor u) = some s ∧
      (axisWasSet XBOX_AXIS_LT ops = false →
        s.get_axis XBOX_AXIS_LT = if lastButton XBOX_BTN_LT ops = some true then 255 else 0) ∧
      (axisWasSet XBOX_AXIS_RT ops = false →
        s.get_axis XBOX_AXIS_RT = if lastButton XBOX_BTN_RT ops = some true then 255 else 0)) ∧
    ((XboxGenericMsg.ctor u).set_button XBOX_BTN_RT true).get_axis XBOX_AXIS_RT = 255 := by
  refine ⟨?_, ?_⟩
  · obtain ⟨s, hrun⟩ := run_total from_float ops (XboxGenericMsg.ctor u) hdef
    refine ⟨s, hrun, ?_, ?_⟩
    · intro h
      rw [get_axis_lt_unset s (by rw [reachable_axis_set from_float u ops s hrun]; exact h),
        (reachable_button from_float u ops s hrun XBOX_BTN_LT).2]
      cases lastButton XBOX_BTN_LT ops with
      | none => simp [bool_to_int]
      | some w => cases w <;> simp [bool_to_int]
    · intro h
      rw [get_axis_rt_unset s (by rw [reachable_axis_set from_float u ops s hrun]; exact h),
        (reachable_button from_float u ops s hrun XBOX_BTN_RT).2]
      cases lastButton XBOX_BTN_RT ops with
      | none => simp [bool_to_int]
      | some w => cases w <;> simp [bool_to_int]
  · simp [XboxGenericMsg.get_axis, XboxGenericMsg.ctor, XboxGenericMsg.clear,
      XboxGenericMsg.set_button, bool_to_int]

/-- Witness for C4: the sequence `set_button(LT, true)`, `set_axis_float(LT, 1/2)`,
`set_button(RT, true)`, `set_button(RT, false)` never calls `set_axis`; it leaves
`get_axis(LT) = 255` and `get_axis(RT) = 0`. -/
theorem trigger_axis_from_button_witness :
    floatsDefined [Op.set_button XBOX_BTN_LT true, Op.set_axis_float XBOX_AXIS_LT (1 / 2 : ℚ),
      Op.set_button XBOX_BTN_RT true, Op.set_button XBOX_BTN_RT false] ∧
    ∃ s, run (fun (_ : ℚ) (_ hi : Int) => hi)
        [Op.set_button XBOX_BTN_LT true, Op.set_axis_float XBOX_AXIS_LT (1 / 2 : ℚ),
          Op.set_button XBOX_BTN_RT true, Op.set_button XBOX_BTN_RT false]
        (XboxGenericMsg.ctor zeroed) = some s ∧
      s.get_axis XBOX_AXIS_LT = 255 ∧ s.get_axis XBOX_AXIS_RT = 0 := by
  have hdef : floatsDefined [Op.set_button XBOX_BTN_LT true,
      Op.set_axis_float XBOX_AXIS_LT (1 / 2 : ℚ), Op.set_button XBOX_BTN_RT true,
      Op.set_button XBOX_BTN_RT false] := by
    intro a v h
    simp at h
    rw [h.1]
    rfl
  obtain ⟨s, hrun, h1, h2⟩ :=
    (trigger_axis_from_button (fun (_ : ℚ) (_ hi : Int) => hi) zeroed _ hdef).1
  exact ⟨hdef, s, hrun, by simpa [axisWasSet, trackAxisSet, lastButton, trackButton] using h1,
    by simpa [axisWasSet, trackAxisSet, lastButton, trackButton] using h2⟩

/-- C5 (D-pad axes from the D-pad buttons): every sequence of `clear`, `set_button`,
`set_axis` and `set_axis_float` calls (the float calls on defined axes) runs from a new
snapshot to a snapshot on which, if `set_axis` was not called on DPAD_X (since the last
`clear`, if any), `get_axis(DPAD_X)` is -1 when DPAD_LEFT is pressed and DPAD_RIGHT is not, +1
when DPAD_RIGHT is pressed and DPAD_LEFT is not, and 0 when both or neither are pressed, a
button being pressed when it was last set to `true`; the same holds for DPAD_Y with DPAD_UP
giving -1 and DPAD_DOWN giving +1. On a new snapshot, LEFT and RIGHT both set to `true` give
0 and LEFT alone set to `true` gives -1. -/
theorem dpad_axis_from_buttons {R : Type} (from_float : R → Int → Int → Int)
    (u : XboxGenericMsg) (ops : List (Op R)) (hdef : floatsDefined ops) :
    (∃ s, run from_float ops (XboxGenericMsg.ctor u) = some s ∧
      (axisWasSet XBOX_AXIS_DPAD_X ops = false →
        (pressed XBOX_DPAD_LEFT ops = true → pressed XBOX_DPAD_RIGHT ops = false →
          s.get_axis XBOX_AXIS_DPAD_X = -1) ∧
        (pressed XBOX_DPAD_RIGHT ops = true → pressed XBOX_DPAD_LEFT ops = false →
          s.get_axis XBOX_AXIS_DPAD_X = 1) ∧
        (pressed XBOX_DPAD_LEFT ops = pressed XBOX_DPAD_RIGHT ops →
          s.get_axis XBOX_AXIS_DPAD_X = 0)) ∧
      (axisWasSet XBOX_AXIS_DPAD_Y ops = false →
        (pressed XBOX_DPAD_UP ops = true → pressed XBOX_DPAD_DOWN ops = false →
          s.get_axis XBOX_AXIS_DPAD_Y = -1) ∧
        (pressed XBOX_DPAD_DOWN ops = true → pressed XBOX_DPAD_UP ops = false →
          s.get_axis XBOX_AXIS_DPAD_Y = 1) ∧
        (pressed XBOX_DPAD_UP ops = pressed XBOX_DPAD_DOWN ops →
          s.get_axis XBOX_AXIS_DPAD_Y = 0))) ∧
    (((XboxGenericMsg.ctor u).set_button XBOX_DPAD_LEFT true).set_button
        XBOX_DPAD_RIGHT true).get_axis XBOX_AXIS_DPAD_X = 0 ∧
    ((XboxGenericMsg.ctor u).set_button XBOX_DPAD_LEFT true).get_axis XBOX_AXIS_DPAD_X
      = -1 := by
  refine ⟨?_, ?_, ?_⟩
  · obtain ⟨s, hrun⟩ := run_total from_float ops (XboxGenericMsg.ctor u) hdef
    refine ⟨s, hrun, ?_, ?_⟩
    · intro h
      rw [get_axis_dpad_x_unset s (by rw [reachable_axis_set from_float u ops s hrun]; exact h),
        reachable_button_state from_float u ops s hrun XBOX_DPAD_LEFT,
        reachable_button_state from_float u ops s hrun XBOX_DPAD_RIGHT]
      refine ⟨?_, ?_, ?_⟩
      · intro h1 h2
        simp [h1, h2]
      · intro h1 h2
        simp [h1, h2]
      · intro h1
        rw [h1]
        cases pressed XBOX_DPAD_RIGHT ops <;> simp
    · intro h
      rw [get_axis_dpad_y_unset s (by rw [reachable_axis_set from_float u ops s hrun]; exact h),
        reachable_button_state from_float u ops s hrun XBOX_DPAD_UP,
        reachable_button_state from_float u ops s hrun XBOX_DPAD_DOWN]
      refine ⟨?_, ?_, ?_⟩
      · intro h1 h2
        simp [h1, h2]
      · intro h1 h2
        simp [h1, h2]
      · intro h1
        rw [h1]
        cases pressed XBOX_DPAD_DOWN ops <;> simp
  · simp [XboxGenericMsg.get_axis, XboxGenericMsg.ctor, XboxGenericMsg.clear,
      XboxGenericMsg.set_button]
  · simp [XboxGenericMsg.get_axis, XboxGenericMsg.ctor, XboxGenericMsg.clear,
      XboxGenericMsg.set_button]

/-- Witness for C5: the sequence `set_button(DPAD_DOWN, true)`, `set_button(DPAD_UP, true)`,
`set_button(DPAD_UP, false)`, `set_axis_float(DPAD_Y, -1)` never calls `set_axis`; DPAD_DOWN
is pressed and DPAD_UP is not, and `get_axis(DPAD_Y) = 1`. -/
theorem dpad_axis_from_buttons_witness :
    floatsDefined [Op.set_button XBOX_DPAD_DOWN true, Op.set_button XBOX_DPAD_UP true,
      Op.set_button XBOX_DPAD_UP false, Op.set_axis_float XBOX_AXIS_DPAD_Y (-1 : ℚ)] ∧
    ∃ s, run (fun (_ : ℚ) (lo _ : Int) => lo)
        [Op.set_button XBOX_DPAD_DOWN true, Op.set_button XBOX_DPAD_UP true,
          Op.set_button XBOX_DPAD_UP false, Op.set_axis_float XBOX_AXIS_DPAD_Y (-1 : ℚ)]
        (XboxGenericMsg.ctor zeroed) = some s ∧
      s.get_axis XBOX_AXIS_DPAD_Y = 1 := by
  have hdef : floatsDefined [Op.set_button XBOX_DPAD_DOWN true,
      Op.set_button XBOX_DPAD_UP true, Op.set_button XBOX_DPAD_UP false,
      Op.set_axis_float XBOX_AXIS_DPAD_Y (-1 : ℚ)] := by
    intro a v h
    simp at h
    rw [h.1]
    rfl
  obtain ⟨s, hrun, _, hy⟩ :=
    (dpad_axis_from_buttons (fun (_ : ℚ) (lo _ : Int) => lo) zeroed _ hdef).1
  exact ⟨hdef, s, hrun,
    (hy (by simp [axisWasSet, trackAxisSet])).2.1
      (by simp [pressed, lastButton, trackButton])
      (by simp [pressed, lastButton, trackButton])⟩

/-- C6 (analog face-button axes), the code at the failing input: on a new snapshot after
`set_button(x, true)` for `x` among A, B, X, Y, the unset axis of the same name reads 1 (the
`bool` converted to `int`, without the factor 255 of the LT, RT, BLACK and WHITE rules), not
255; after `set_button(x, false)` it reads 0. The static maximum of these axes is 255. -/
theorem face_axis_from_button_is_one (u : XboxGenericMsg) :
    (((XboxGenericMsg.ctor u).set_button XBOX_BTN_A true).get_axis XBOX_AXIS_A = 1 ∧
      ((XboxGenericMsg.ctor u).set_button XBOX_BTN_B true).get_axis XBOX_AXIS_B = 1 ∧
      ((XboxGenericMsg.ctor u).set_button XBOX_BTN_X true).get_axis XBOX_AXIS_X = 1 ∧
      ((XboxGenericMsg.ctor u).set_button XBOX_BTN_Y true).get_axis XBOX_AXIS_Y = 1) ∧
    (((XboxGenericMsg.ctor u).set_button XBOX_BTN_A false).get_axis XBOX_AXIS_A = 0 ∧
      ((XboxGenericMsg.ctor u).set_button XBOX_BTN_B false).get_axis XBOX_AXIS_B = 0 ∧
      ((XboxGenericMsg.ctor u).set_button XBOX_BTN_X false).get_axis XBOX_AXIS_X = 0 ∧
      ((XboxGenericMsg.ctor u).set_button XBOX_BTN_Y false).get_axis XBOX_AXIS_Y = 0) ∧
    ((XboxGenericMsg.ctor u).set_button XBOX_BTN_A true).get_axis XBOX_AXIS_A ≠ 255 ∧
    get_axis_max XBOX_AXIS_A = some 255 ∧
    ((XboxGenericMsg.ctor u).set_button XBOX_BTN_LT true).get_axis XBOX_AXIS_LT = 255 := by
  simp [XboxGenericMsg.get_axis, XboxGenericMsg.ctor, XboxGenericMsg.clear,
    XboxGenericMsg.set_button, bool_to_int, get_axis_max]

/-- C7 (black/white wiring), the code at the failing input: on a new snapshot after
`set_button(RB, true)` alone, `get_axis(BLACK) = 0` and `get_axis(WHITE) = 255`; after
`set_button(LB, true)` alone, `get_axis(WHITE) = 0` and `get_axis(BLACK) = 255`. The unset
BLACK axis is derived from LB and the unset WHITE axis from RB, whereas the name tables pair
them the other way round: `string2btn` reads "black" as RB and "white" as LB, and
`string2axis` reads "rb" as BLACK and "lb" as WHITE. -/
theorem black_white_from_lb_rb (u : XboxGenericMsg) :
    (((XboxGenericMsg.ctor u).set_button XBOX_BTN_RB true).get_axis XBOX_AXIS_BLACK = 0 ∧
      ((XboxGenericMsg.ctor u).set_button XBOX_BTN_RB true).get_axis XBOX_AXIS_WHITE = 255 ∧
      ((XboxGenericMsg.ctor u).set_button XBOX_BTN_LB true).get_axis XBOX_AXIS_WHITE = 0 ∧
      ((XboxGenericMsg.ctor u).set_button XBOX_BTN_LB true).get_axis XBOX_AXIS_BLACK = 255) ∧
    (string2btn "black" = Except.ok XBOX_BTN_RB ∧
      string2btn "white" = Except.ok XBOX_BTN_LB ∧
      string2axis "rb" = Except.ok XBOX_AXIS_BLACK ∧
      string2axis "lb" = Except.ok XBOX_AXIS_WHITE) := by
  refine ⟨?_, rfl, rfl, rfl, rfl⟩
  simp [XboxGenericMsg.get_axis, XboxGenericMsg.ctor, XboxGenericMsg.clear,
    XboxGenericMsg.set_button, bool_to_int]

/-! ## Clearing and defaults -/

/-- C8 (clear resets all): every sequence of `clear`, `set_button`, `set_axis` and
`set_axis_float` calls (the float calls on defined axes) runs from a new snapshot to a
snapshot `s` such that `s.clear()` is the state the constructor produces (every stored value
0 or `false`, every set flag `false`), so that `get_axis`, `get_button` and `get_axis_float`
return on it what they return on a brand-new snapshot, for every axis and button. -/
theorem clear_resets_all {R F : Type} (from_float : R → Int → Int → Int)
    (to_float : Int → Int → Int → F) (u u' : XboxGenericMsg) (ops : List (Op R))
    (hdef : floatsDefined ops) :
    ∃ s, run from_float ops (XboxGenericMsg.ctor u) = some s ∧
      s.clear = XboxGenericMsg.ctor u' ∧
      s.clear = zeroed ∧
      (∀ a, s.clear.get_axis a = (XboxGenericMsg.ctor u').get_axis a) ∧
      (∀ b, s.clear.get_button b = (XboxGenericMsg.ctor u').get_button b) ∧
      (∀ a, s.clear.get_axis_float to_float a
        = (XboxGenericMsg.ctor u').get_axis_float to_float a) := by
  obtain ⟨s, hrun⟩ := run_total from_float ops (XboxGenericMsg.ctor u) hdef
  exact ⟨s, hrun, rfl, rfl, fun _ => rfl, fun _ => rfl, fun _ => rfl⟩

/-- Witness for C8: the sequence `set_button(A, true)`, `set_axis(X1, -32768)`,
`set_axis_float(RT, 1/2)` runs, and clearing its result gives the constructor's state. -/
theorem clear_resets_all_witness :
    floatsDefined [Op.set_button XBOX_BTN_A true, Op.set_axis XBOX_AXIS_X1 (-32768),
      Op.set_axis_float XBOX_AXIS_RT (1 / 2 : ℚ)] ∧
    ∃ s, run (fun (_ : ℚ) (_ hi : Int) => hi)
        [Op.set_button XBOX_BTN_A true, Op.set_axis XBOX_AXIS_X1 (-32768),
          Op.set_axis_float XBOX_AXIS_RT (1 / 2 : ℚ)] (XboxGenericMsg.ctor zeroed) = some s ∧
      s.clear = XboxGenericMsg.ctor zeroed ∧
      s.clear = zeroed ∧
      (∀ a, s.clear.get_axis a = (XboxGenericMsg.ctor zeroed).get_axis a) ∧
      (∀ b, s.clear.get_button b = (XboxGenericMsg.ctor zeroed).get_button b) ∧
      (∀ a, s.clear.get_axis_float (fun v _ _ => (v : ℚ)) a
        = (XboxGenericMsg.ctor zeroed).get_axis_float (fun v _ _ => (v : ℚ)) a) := by
  have hdef : floatsDefined [Op.set_button XBOX_BTN_A true,
      Op.set_axis XBOX_AXIS_X1 (-32768), Op.set_axis_float XBOX_AXIS_RT (1 / 2 : ℚ)] := by
    intro a v h
    simp at h
    rw [h.1]
    rfl
  exact ⟨hdef, clear_resets_all _ _ zeroed zeroed _ hdef⟩

/-- C9 (defaults for controls without a derivation rule): every sequence of `clear`,
`set_button`, `set_axis` and `set_axis_float` calls (the float calls on defined axes) runs
from a new snapshot to a snapshot on which `get_axis(a) = 0` for each `a` among X1, Y1, X2, Y2
on which `set_axis` was not called since the last `clear`, and `get_button(b) = false` for
each `b` among START, BACK, GUIDE, THUMB_L, THUMB_R on which `set_button` was not called since
the last `clear`; both hold for every such control on a freshly cleared snapshot. -/
theorem defaults_without_rule {R : Type} (from_float : R → Int → Int → Int)
    (u : XboxGenericMsg) (ops : List (Op R)) (hdef : floatsDefined ops) :
    (∃ s, run from_float ops (XboxGenericMsg.ctor u) = some s ∧
      (∀ a ∈ [XBOX_AXIS_X1, XBOX_AXIS_Y1, XBOX_AXIS_X2, XBOX_AXIS_Y2],
        axisWasSet a ops = false → s.get_axis a = 0) ∧
      (∀ b ∈ [XBOX_BTN_START, XBOX_BTN_BACK, XBOX_BTN_GUIDE, XBOX_BTN_THUMB_L,
          XBOX_BTN_THUMB_R],
        lastButton b ops = none → s.get_button b = false)) ∧
    (∀ s0 : XboxGenericMsg,
      (∀ a ∈ [XBOX_AXIS_X1, XBOX_AXIS_Y1, XBOX_AXIS_X2, XBOX_AXIS_Y2],
        s0.clear.get_axis a = 0) ∧
      (∀ b ∈ [XBOX_BTN_START, XBOX_BTN_BACK, XBOX_BTN_GUIDE, XBOX_BTN_THUMB_L,
          XBOX_BTN_THUMB_R],
        s0.clear.get_button b = false)) := by
  refine ⟨?_, ?_⟩
  · obtain ⟨s, hrun⟩ := run_total from_float ops (XboxGenericMsg.ctor u) hdef
    refine ⟨s, hrun, ?_, ?_⟩
    · intro a ha hset
      have hflag : s.m_axis_set a = false := by
        rw [reachable_axis_set from_float u ops s hrun]
        exact hset
      simp only [List.mem_cons, List.mem_singleton, List.not_mem_nil, or_false] at ha
      rcases ha with rfl | rfl | rfl | rfl <;>
        simp [XboxGenericMsg.get_axis, hflag]
    · intro b hb hlast
      have hflag : s.m_button_set b = false := by
        rw [(reachable_button from_float u ops s hrun b).1, hlast]
        rfl
      simp only [List.mem_cons, List.mem_singleton, List.not_mem_nil, or_false] at hb
      rcases hb with rfl | rfl | rfl | rfl | rfl <;>
        simp [XboxGenericMsg.get_button, hflag]
  · intro s0
    refine ⟨?_, ?_⟩
    · intro a ha
      simp only [List.mem_cons, List.mem_singleton, List.not_mem_nil, or_false] at ha
      rcases ha with rfl | rfl | rfl | rfl <;>
        simp [XboxGenericMsg.get_axis, XboxGenericMsg.clear]
    · intro b hb
      simp only [List.mem_cons, List.mem_singleton, List.not_mem_nil, or_false] at hb
      rcases hb with rfl | rfl | rfl | rfl | rfl <;>
        simp [XboxGenericMsg.get_button, XboxGenericMsg.clear]

/-- Witness for C9: the sequence `set_axis(X1, 5)`, `set_button(START, true)`, `clear()`,
`set_axis(Y1, 9)`, `set_axis_float(X2, 1/2)`, `set_button(BACK, true)` calls `set_axis` on X1
and `set_button` on START only before the `clear`; it leaves `get_axis(X1) = 0` and
`get_button(START) = false`. -/
theorem defaults_without_rule_witness :
    floatsDefined [Op.set_axis XBOX_AXIS_X1 5, Op.set_button XBOX_BTN_START true, Op.clear,
      Op.set_axis XBOX_AXIS_Y1 9, Op.set_axis_float XBOX_AXIS_X2 (1 / 2 : ℚ),
      Op.set_button XBOX_BTN_BACK true] ∧
    ∃ s, run (fun (_ : ℚ) (_ hi : Int) => hi)
        [Op.set_axis XBOX_AXIS_X1 5, Op.set_button XBOX_BTN_START true, Op.clear,
          Op.set_axis XBOX_AXIS_Y1 9, Op.set_axis_float XBOX_AXIS_X2 (1 / 2 : ℚ),
          Op.set_button XBOX_BTN_BACK true] (XboxGenericMsg.ctor zeroed) = some s ∧
      s.get_axis XBOX_AXIS_X1 = 0 ∧ s.get_button XBOX_BTN_START = false := by
  have hdef : floatsDefined [Op.set_axis XBOX_AXIS_X1 5, Op.set_button XBOX_BTN_START true,
      Op.clear, Op.set_axis XBOX_AXIS_Y1 9, Op.set_axis_float XBOX_AXIS_X2 (1 / 2 : ℚ),
      Op.set_button XBOX_BTN_BACK true] := by
    intro a v h
    simp at h
    rw [h.1]
    rfl
  obtain ⟨s, hrun, hax, hbt⟩ :=
    (defaults_without_rule (fun (_ : ℚ) (_ hi : Int) => hi) zeroed _ hdef).1
  exact ⟨hdef, s, hrun,
    hax XBOX_AXIS_X1 (by simp) (by simp [axisWasSet, trackAxisSet]),
    hbt XBOX_BTN_START (by simp) (by simp [lastButton, trackButton])⟩

/-! ## Which stored values the accessors read -/

theorem get_axis_congr_leaf (s1 s2 : XboxGenericMsg) (h : sameSetData s1 s2)
    (hb : ∀ b, s1.m_button_state b = s2.m_button_state b) (a : XboxAxis)
    (ha : a ≠ XBOX_AXIS_TRIGGER) : s1.get_axis a = s2.get_axis a := by
  obtain ⟨h1, _, h3, _⟩ := h
  cases hs : s1.m_axis_set a with
  | true =>
    rw [get_axis_of_set s1 a hs, get_axis_of_set s2 a (by rw [← h1]; exact hs), h3 a hs]
  | false =>
    have hs2 : s2.m_axis_set a = false := by rw [← h1]; exact hs
    cases a <;> first
      | exact absurd rfl ha
      | simp [XboxGenericMsg.get_axis, hs, hs2, hb]

theorem get_axis_congr (s1 s2 : XboxGenericMsg) (h : sameSetData s1 s2)
    (hb : ∀ b, s1.m_button_state b = s2.m_button_state b) (a : XboxAxis) :
    s1.get_axis a = s2.get_axis a := by
  by_cases ha : a = XBOX_AXIS_TRIGGER
  · subst ha
    cases hs : s1.m_axis_set XBOX_AXIS_TRIGGER with
    | true =>
      rw [get_axis_of_set s1 _ hs, get_axis_of_set s2 _ (by rw [← h.1]; exact hs),
        h.2.2.1 _ hs]
    | false =>
      rw [get_axis_trigger_unset s1 hs,
        get_axis_trigger_unset s2 (by rw [← h.1]; exact hs),
        get_axis_congr_leaf s1 s2 h hb XBOX_AXIS_LT (by decide),
        get_axis_congr_leaf s1 s2 h hb XBOX_AXIS_RT (by decide)]
  · exact get_axis_congr_leaf s1 s2 h hb a ha

theorem get_button_congr (s1 s2 : XboxGenericMsg) (h : sameSetData s1 s2)
    (ha : ∀ a, s1.m_axis_state a = s2.m_axis_state a) (b : XboxButton) :
    s1.get_button b = s2.get_button b := by
  obtain ⟨_, h2, _, h4⟩ := h
  cases hs : s1.m_button_set b with
  | true =>
    rw [get_button_of_set s1 b hs, get_button_of_set s2 b (by rw [← h2]; exact hs), h4 b hs]
  | false =>
    have hs2 : s2.m_button_set b = false := by rw [← h2]; exact hs
    cases b <;> simp [XboxGenericMsg.get_button, hs, hs2, ha]

theorem set_axis_float_leaves_unset {R : Type} (from_float : R → Int → Int → Int)
    (u : XboxGenericMsg) (v : R) :
    (XboxGenericMsg.ctor u).set_axis_float from_float XBOX_AXIS_LT v
      = some { zeroed with
          m_axis_state :=
            Function.update zeroed.m_axis_state XBOX_AXIS_LT (from_float v 0 255) } :=
  rfl

/-- C10, counterexample: the all-zero snapshot and the snapshot that differs from it only in
the stored value of the unset button RT (`true`) carry the same set data, yet `get_axis(RT)`
is 0 on the first and 255 on the second; the all-zero snapshot and the one that differs only
in the stored value of the unset axis LT (255) carry the same set data, yet `get_button(LT)`
is `false` on the first and `true` on the second. Hence the accessors do not agree on every
pair of snapshots with the same set data. -/
theorem unset_raw_value_is_read :
    (sameSetData zeroed
        { zeroed with
          m_button_state := Function.update zeroed.m_button_state XBOX_BTN_RT true } ∧
      zeroed.get_axis XBOX_AXIS_RT = 0 ∧
      XboxGenericMsg.get_axis
        { zeroed with
          m_button_state := Function.update zeroed.m_button_state XBOX_BTN_RT true }
        XBOX_AXIS_RT = 255) ∧
    (sameSetData zeroed
        { zeroed with m_axis_state := Function.update zeroed.m_axis_state XBOX_AXIS_LT 255 } ∧
      zeroed.get_button XBOX_BTN_LT = false ∧
      XboxGenericMsg.get_button
        { zeroed with m_axis_state := Function.update zeroed.m_axis_state XBOX_AXIS_LT 255 }
        XBOX_BTN_LT = true) ∧
    ¬ (∀ s1 s2 : XboxGenericMsg, sameSetData s1 s2 →
        (∀ a : XboxAxis, a.defined = true → s1.get_axis a = s2.get_axis a) ∧
        (∀ b : XboxButton, b.defined = true → s1.get_button b = s2.get_button b)) := by
  have hA : sameSetData zeroed
      { zeroed with
        m_button_state := Function.update zeroed.m_button_state XBOX_BTN_RT true } := by
    refine ⟨fun _ => rfl, fun _ => rfl, fun _ _ => rfl, ?_⟩
    intro b hb
    simp [zeroed] at hb
  have h0 : zeroed.get_axis XBOX_AXIS_RT = 0 := by
    simp [XboxGenericMsg.get_axis, zeroed, bool_to_int]
  have h255 : XboxGenericMsg.get_axis
      { zeroed with
        m_button_state := Function.update zeroed.m_button_state XBOX_BTN_RT true }
      XBOX_AXIS_RT = 255 := by
    simp [XboxGenericMsg.get_axis, zeroed, bool_to_int]
  have hB : sameSetData zeroed
      { zeroed with
        m_axis_state := Function.update zeroed.m_axis_state XBOX_AXIS_LT 255 } := by
    refine ⟨fun _ => rfl, fun _ => rfl, ?_, fun _ _ => rfl⟩
    intro a ha
    simp [zeroed] at ha
  refine ⟨⟨hA, h0, h255⟩, ⟨hB, ?_, ?_⟩, ?_⟩
  · simp [XboxGenericMsg.get_button, zeroed, int_to_bool]
  · simp [XboxGenericMsg.get_button, zeroed, int_to_bool]
  · intro hall
    have h := (hall _ _ hA).1 XBOX_AXIS_RT (by decide)
    rw [h0, h255] at h
    exact absurd h (by decide)

/-- C10, amended: `get_axis` never reads the stored value of an unset axis and `get_button`
never reads the stored value of an unset button. For any two snapshots with the same is-set
flags for every axis and button and the same stored values on every field that is set:
if they also have the same stored value on every button, `get_axis(a)` returns the same
result on both for every axis `a` (the stored values of unset axes may differ arbitrarily);
if they also have the same stored value on every axis, `get_button(b)` returns the same
result on both for every button `b` (the stored values of unset buttons may differ
arbitrarily). -/
theorem unset_own_kind_not_read (s1 s2 : XboxGenericMsg) (h : sameSetData s1 s2) :
    ((∀ b, s1.m_button_state b = s2.m_button_state b) →
      ∀ a : XboxAxis, s1.get_axis a = s2.get_axis a) ∧
    ((∀ a, s1.m_axis_state a = s2.m_axis_state a) →
      ∀ b : XboxButton, s1.get_button b = s2.get_button b) :=
  ⟨fun hb a => get_axis_congr s1 s2 h hb a, fun ha b => get_button_congr s1 s2 h ha b⟩

/-- Witness for the amended C10: the all-zero snapshot and the snapshot that differs from it
in the stored value of the unset axis TRIGGER (77) carry the same set data and the same
button values, and `get_axis` agrees on them for every axis; the all-zero snapshot and the
snapshot that differs from it in the stored value of the unset button START (`true`) carry the
same set data and the same axis values, and `get_button` agrees on them for every button. -/
theorem unset_own_kind_not_read_witness :
    (sameSetData zeroed
        { zeroed with
          m_axis_state := Function.update zeroed.m_axis_state XBOX_AXIS_TRIGGER 77 } ∧
      ∀ a : XboxAxis, zeroed.get_axis a
        = XboxGenericMsg.get_axis
            { zeroed with
              m_axis_state := Function.update zeroed.m_axis_state XBOX_AXIS_TRIGGER 77 } a) ∧
    (sameSetData zeroed
        { zeroed with
          m_button_state := Function.update zeroed.m_button_state XBOX_BTN_START true } ∧
      ∀ b : XboxButton, zeroed.get_button b
        = XboxGenericMsg.get_button
            { zeroed with
              m_button_state := Function.update zeroed.m_button_state XBOX_BTN_START true }
            b) := by
  have hS : sameSetData zeroed
      { zeroed with
        m_axis_state := Function.update zeroed.m_axis_state XBOX_AXIS_TRIGGER 77 } := by
    refine ⟨fun _ => rfl, fun _ => rfl, ?_, fun _ _ => rfl⟩
    intro a ha
    simp [zeroed] at ha
  have hT : sameSetData zeroed
      { zeroed with
        m_button_state := Function.update zeroed.m_button_state XBOX_BTN_START true } := by
    refine ⟨fun _ => rfl, fun _ => rfl, fun _ _ => rfl, ?_⟩
    intro b hb
    simp [zeroed] at hb
  exact ⟨⟨hS, (unset_own_kind_not_read _ _ hS).1 (fun _ => rfl)⟩,
    ⟨hT, (unset_own_kind_not_read _ _ hT).2 (fun _ => rfl)⟩⟩

/-! ## The float accessors -/

/-- C11 (set_axis_float and the set flag), the code at the failing input: on a new snapshot
`set_axis_float(X1, v)` returns, stores `from_float(v, -32768, 32767)` in `m_axis_state[X1]`
and leaves `m_axis_set[X1]` false, so that `get_axis(X1)` is still 0; the snapshot that
`set_axis(X1, from_float(v, -32768, 32767))` produces has the flag set and reads back the
converted value, and the two snapshots are different. -/
theorem set_axis_float_leaves_flag {R : Type} (from_float : R → Int → Int → Int)
    (u : XboxGenericMsg) (v : R) :
    ∃ s, (XboxGenericMsg.ctor u).set_axis_float from_float XBOX_AXIS_X1 v = some s ∧
      s.m_axis_state XBOX_AXIS_X1 = from_float v (-32768) 32767 ∧
      s.m_axis_set XBOX_AXIS_X1 = false ∧
      s.get_axis XBOX_AXIS_X1 = 0 ∧
      ((XboxGenericMsg.ctor u).set_axis XBOX_AXIS_X1
        (from_float v (-32768) 32767)).m_axis_set XBOX_AXIS_X1 = true ∧
      ((XboxGenericMsg.ctor u).set_axis XBOX_AXIS_X1
        (from_float v (-32768) 32767)).get_axis XBOX_AXIS_X1 = from_float v (-32768) 32767 ∧
      s ≠ (XboxGenericMsg.ctor u).set_axis XBOX_AXIS_X1 (from_float v (-32768) 32767) := by
  refine ⟨_, rfl, ?_, rfl, ?_, ?_, ?_, ?_⟩
  · simp [XboxGenericMsg.ctor, XboxGenericMsg.clear]
  · simp [XboxGenericMsg.get_axis, XboxGenericMsg.ctor, XboxGenericMsg.clear]
  · simp [XboxGenericMsg.set_axis]
  · simp [XboxGenericMsg.get_axis, XboxGenericMsg.set_axis]
  · intro h
    have h2 := congrArg (fun s => s.m_axis_set XBOX_AXIS_X1) h
    simp [XboxGenericMsg.ctor, XboxGenericMsg.clear, XboxGenericMsg.set_axis] at h2

/-- C12 (get_axis_float and derivation), the code at the failing input: on a new snapshot
after `set_button(RT, true)`, `get_axis(RT)` is 255 but `get_axis_float(RT)` returns
`to_float(0, 0, 255)`, the conversion of the raw `m_axis_state[RT]`, not
`to_float(255, 0, 255)`; with the conversion that returns its first argument the two are 0 and
255. -/
theorem get_axis_float_reads_raw {F : Type} (to_float : Int → Int → Int → F)
    (u : XboxGenericMsg) :
    ((XboxGenericMsg.ctor u).set_button XBOX_BTN_RT true).get_axis XBOX_AXIS_RT = 255 ∧
    ((XboxGenericMsg.ctor u).set_button XBOX_BTN_RT true).get_axis_float to_float XBOX_AXIS_RT
      = some (to_float 0 0 255) ∧
    ((XboxGenericMsg.ctor u).set_button XBOX_BTN_RT true).get_axis_float
        (fun v _ _ => v) XBOX_AXIS_RT = some 0 ∧
    ((XboxGenericMsg.ctor u).set_button XBOX_BTN_RT true).get_axis_float
        (fun v _ _ => v) XBOX_AXIS_RT
      ≠ some ((fun (v _ _ : Int) => v)
          (((XboxGenericMsg.ctor u).set_button XBOX_BTN_RT true).get_axis XBOX_AXIS_RT)
          0 255) := by
  have h255 : ((XboxGenericMsg.ctor u).set_button XBOX_BTN_RT true).get_axis XBOX_AXIS_RT
      = 255 := by
    simp [XboxGenericMsg.get_axis, XboxGenericMsg.ctor, XboxGenericMsg.clear,
      XboxGenericMsg.set_button, bool_to_int]
  refine ⟨h255, rfl, rfl, ?_⟩
  rw [h255]
  simp [XboxGenericMsg.get_axis_float, get_axis_min, get_axis_max, XboxGenericMsg.ctor,
    XboxGenericMsg.clear, XboxGenericMsg.set_button]

/-! ## The axis range invariant -/

theorem get_axis_leaf_in_range (s : XboxGenericMsg) (a : XboxAxis) (lo hi : Int)
    (hs : s.m_axis_set a = false) (ha : a ≠ XBOX_AXIS_TRIGGER)
    (hmin : get_axis_min a = some lo) (hmax : get_axis_max a = some hi) :
    lo ≤ s.get_axis a ∧ s.get_axis a ≤ hi := by
  cases a <;> simp only [get_axis_min, get_axis_max, Option.some.injEq] at hmin hmax <;>
    first
      | exact absurd rfl ha
      | exact absurd hmin (by simp)
      | (subst hmin; subst hmax
         simp only [XboxGenericMsg.get_axis, hs, bool_to_int]
         simp only [Bool.false_eq_true, if_false]
         omega)

theorem get_axis_in_range (s : XboxGenericMsg)
    (hinv : ∀ a lo hi, get_axis_min a = some lo → get_axis_max a = some hi →
      s.m_axis_set a = true → lo ≤ s.m_axis_state a ∧ s.m_axis_state a ≤ hi)
    (a : XboxAxis) (lo hi : Int) (hmin : get_axis_min a = some lo)
    (hmax : get_axis_max a = some hi) :
    lo ≤ s.get_axis a ∧ s.get_axis a ≤ hi := by
  cases hs : s.m_axis_set a with
  | true =>
    rw [get_axis_of_set s a hs]
    exact hinv a lo hi hmin hmax hs
  | false =>
    by_cases ha : a = XBOX_AXIS_TRIGGER
    · subst ha
      have hlt : (0 : Int) ≤ s.get_axis XBOX_AXIS_LT ∧ s.get_axis XBOX_AXIS_LT ≤ 255 := by
        cases h1 : s.m_axis_set XBOX_AXIS_LT with
        | true =>
          rw [get_axis_of_set s _ h1]
          exact hinv XBOX_AXIS_LT 0 255 rfl rfl h1
        | false => exact get_axis_leaf_in_range s XBOX_AXIS_LT 0 255 h1 (by decide) rfl rfl
      have hrt : (0 : Int) ≤ s.get_axis XBOX_AXIS_RT ∧ s.get_axis XBOX_AXIS_RT ≤ 255 := by
        cases h1 : s.m_axis_set XBOX_AXIS_RT with
        | true =>
          rw [get_axis_of_set s _ h1]
          exact hinv XBOX_AXIS_RT 0 255 rfl rfl h1
        | false => exact get_axis_leaf_in_range s XBOX_AXIS_RT 0 255 h1 (by decide) rfl rfl
      simp only [get_axis_min, get_axis_max, Option.some.injEq] at hmin hmax
      subst hmin
      subst hmax
      rw [get_axis_trigger_unset s hs]
      unfold int_wrap
      omega
    · exact get_axis_leaf_in_range s a lo hi hs ha hmin hmax

theorem run_in_range {R : Type} (from_float : R → Int → Int → Int) :
    ∀ (ops : List (Op R)) (s : XboxGenericMsg), (∀ op ∈ ops, op.inRange = true) →
      (∀ a lo hi, get_axis_min a = some lo → get_axis_max a = some hi →
        s.m_axis_set a = true → lo ≤ s.m_axis_state a ∧ s.m_axis_state a ≤ hi) →
      ∃ s', run from_float ops s = some s' ∧
        ∀ a lo hi, get_axis_min a = some lo → get_axis_max a = some hi →
          s'.m_axis_set a = true → lo ≤ s'.m_axis_state a ∧ s'.m_axis_state a ≤ hi := by
  intro ops
  induction ops with
  | nil => intro s _ hinv; exact ⟨s, rfl, hinv⟩
  | cons op ops ih =>
    intro s hall hinv
    have hop := hall op (List.mem_cons_self _ _)
    have hrest : ∀ o ∈ ops, o.inRange = true :=
      fun o ho => hall o (List.mem_cons_of_mem _ ho)
    cases op with
    | clear =>
      simp only [run, Op.step]
      refine ih s.clear hrest ?_
      intro a lo hi _ _ hset
      simp [XboxGenericMsg.clear] at hset
    | set_button b w =>
      simp only [run, Op.step]
      exact ih (s.set_button b w) hrest hinv
    | set_axis_float a x => simp [Op.inRange] at hop
    | set_axis a w =>
      simp only [run, Op.step]
      refine ih (s.set_axis a w) hrest ?_
      intro a' lo hi hmin hmax hset
      by_cases haa : a' = a
      · subst haa
        simp only [Op.inRange, hmin, hmax, decide_eq_true_eq] at hop
        simpa [XboxGenericMsg.set_axis] using hop
      · simp only [XboxGenericMsg.set_axis, Function.update_noteq haa] at hset ⊢
        exact hinv a' lo hi hmin hmax hset

/-- C13 (axis range invariant): every sequence of `clear` calls, `set_button` calls and
`set_axis(a, v)` calls with `get_axis_min(a) <= v <= get_axis_max(a)` runs from a new snapshot
to a snapshot on which `get_axis(a)` lies between `get_axis_min(a)` and `get_axis_max(a)` for
every axis with static bounds (the 15 defined axes), whether `a` is set or derived; in
particular the derived TRIGGER value lies in [-255, 255]. -/
theorem axis_range_invariant {R : Type} (from_float : R → Int → Int → Int)
    (u : XboxGenericMsg) (ops : List (Op R)) (hops : ∀ op ∈ ops, op.inRange = true) :
    ∃ s, run from_float ops (XboxGenericMsg.ctor u) = some s ∧
      (∀ a lo hi, get_axis_min a = some lo → get_axis_max a = some hi →
        lo ≤ s.get_axis a ∧ s.get_axis a ≤ hi) ∧
      (s.m_axis_set XBOX_AXIS_TRIGGER = false →
        -255 ≤ s.get_axis XBOX_AXIS_TRIGGER ∧ s.get_axis XBOX_AXIS_TRIGGER ≤ 255) := by
  obtain ⟨s, hrun, hinv⟩ := run_in_range from_float ops (XboxGenericMsg.ctor u) hops (by
    intro a lo hi _ _ hset
    simp [XboxGenericMsg.ctor, XboxGenericMsg.clear] at hset)
  exact ⟨s, hrun, fun a lo hi hmin hmax => get_axis_in_range s hinv a lo hi hmin hmax,
    fun _ => get_axis_in_range s hinv XBOX_AXIS_TRIGGER (-255) 255 rfl rfl⟩

/-- Witness for C13: the sequence `set_axis(LT, 255)`, `set_button(RT, true)`,
`set_axis(DPAD_X, -1)`, `clear()`, `set_axis(LT, 200)`, `set_button(A, true)` keeps every
value in range; it runs, and afterwards `get_axis(TRIGGER)` (derived, -200) lies in
[-255, 255] and `get_axis(A)` (derived) lies in [0, 255]. -/
theorem axis_range_invariant_witness :
    (∀ op ∈ [Op.set_axis XBOX_AXIS_LT 255, Op.set_button XBOX_BTN_RT true,
        Op.set_axis XBOX_AXIS_DPAD_X (-1), Op.clear, Op.set_axis XBOX_AXIS_LT 200,
        (Op.set_button XBOX_BTN_A true : Op ℚ)], op.inRange = true) ∧
    ∃ s, run (fun (_ : ℚ) (_ hi : Int) => hi)
        [Op.set_axis XBOX_AXIS_LT 255, Op.set_button XBOX_BTN_RT true,
          Op.set_axis XBOX_AXIS_DPAD_X (-1), Op.clear, Op.set_axis XBOX_AXIS_LT 200,
          Op.set_button XBOX_BTN_A true] (XboxGenericMsg.ctor zeroed) = some s ∧
      (-255 ≤ s.get_axis XBOX_AXIS_TRIGGER ∧ s.get_axis XBOX_AXIS_TRIGGER ≤ 255) ∧
      (0 ≤ s.get_axis XBOX_AXIS_A ∧ s.get_axis XBOX_AXIS_A ≤ 255) := by
  have hops : ∀ op ∈ [Op.set_axis XBOX_AXIS_LT 255, Op.set_button XBOX_BTN_RT true,
      Op.set_axis XBOX_AXIS_DPAD_X (-1), Op.clear, Op.set_axis XBOX_AXIS_LT 200,
      (Op.set_button XBOX_BTN_A true : Op ℚ)], op.inRange = true := by
    simp [Op.inRange, get_axis_min, get_axis_max]
  obtain ⟨s, hrun, hall, _⟩ :=
    axis_range_invariant (fun (_ : ℚ) (_ hi : Int) => hi) zeroed _ hops
  exact ⟨hops, s, hrun, hall XBOX_AXIS_TRIGGER (-255) 255 rfl rfl,
    hall XBOX_AXIS_A 0 255 rfl rfl⟩

/-! ## The byte-to-word normaliser -/

theorem u8_to_s16_int_eq (x : Nat) (hx : x ≤ 255) :
    u8_to_s16_int x
      = if x < 128 then -32768 + 256 * (x : Int) else (((x : Int) - 128) * 32767) / 127 := by
  have hmod : x % 256 = x := Nat.mod_eq_of_lt (by omega)
  unfold u8_to_s16_int
  rw [hmod]
  by_cases h : x < 128
  · rw [if_pos h, if_pos h, Int.tdiv_eq_ediv (by positivity) (by norm_num)]
    omega
  · rw [if_neg h, if_neg h, Int.tdiv_eq_ediv (by nlinarith) (by norm_num)]

theorem u8_to_s16_int_range (x : Nat) (hx : x ≤ 255) :
    -32768 ≤ u8_to_s16_int x ∧ u8_to_s16_int x ≤ 32767 := by
  rw [u8_to_s16_int_eq x hx]
  split_ifs <;> omega

theorem u8_to_s16_eq_int (x : Nat) (hx : x ≤ 255) : u8_to_s16 x = u8_to_s16_int x := by
  have h := u8_to_s16_int_range x hx
  unfold u8_to_s16 int16_wrap
  omega

/-- C14 (endpoint exactness of `u8_to_s16`): `u8_to_s16(0) = -32768`,
`u8_to_s16(255) = 32767` and `u8_to_s16(128) = 0`, with truncating division and the final
conversion to a 16-bit signed result. -/
theorem u8_to_s16_endpoints :
    u8_to_s16 0 = -32768 ∧ u8_to_s16 255 = 32767 ∧ u8_to_s16 128 = 0 := by
  refine ⟨?_, ?_, ?_⟩ <;> decide

/-- C15 (monotonicity of `u8_to_s16`): for all bytes `x <= y <= 255`,
`u8_to_s16(x) <= u8_to_s16(y)`, across the branch boundary between 127 and 128 as well
(`u8_to_s16(127) = -256`, `u8_to_s16(128) = 0`); for every byte the returned `int` lies in
[-32768, 32767], so the conversion to `int16_t` does not change it. -/
theorem u8_to_s16_monotone :
    (∀ x y : Nat, x ≤ y → y ≤ 255 → u8_to_s16 x ≤ u8_to_s16 y) ∧
    (u8_to_s16 127 = -256 ∧ u8_to_s16 128 = 0) ∧
    (∀ x : Nat, x ≤ 255 →
      u8_to_s16 x = u8_to_s16_int x ∧ -32768 ≤ u8_to_s16 x ∧ u8_to_s16 x ≤ 32767) := by
  refine ⟨?_, ⟨by decide, by decide⟩, ?_⟩
  · intro x y hxy hy
    rw [u8_to_s16_eq_int x (by omega), u8_to_s16_eq_int y hy,
      u8_to_s16_int_eq x (by omega), u8_to_s16_int_eq y hy]
    split_ifs <;> omega
  · intro x hx
    have h := u8_to_s16_int_range x hx
    rw [u8_to_s16_eq_int x hx]
    exact ⟨rfl, h⟩

/-- Witness for C15: the bytes 100 and 200 satisfy `100 <= 200 <= 255`, and
`u8_to_s16(100) <= u8_to_s16(200)`. -/
theorem u8_to_s16_monotone_witness :
    (100 : Nat) ≤ 200 ∧ (200 : Nat) ≤ 255 ∧ u8_to_s16 100 ≤ u8_to_s16 200 :=
  ⟨by decide, by decide, u8_to_s16_monotone.1 100 200 (by decide) (by decide)⟩

/-! ## The float-to-word normaliser -/

theorem round_half_even_le (y : ℚ) (N : Int) (h : y ≤ N) : round_half_even y ≤ N := by
  have hf : ⌊y⌋ ≤ N := by
    have : (⌊y⌋ : ℚ) ≤ N := le_trans (Int.floor_le y) h
    exact_mod_cast this
  have hfl : (⌊y⌋ : ℚ) ≤ y := Int.floor_le y
  unfold round_half_even
  split_ifs with h1 h2 h3
  · exact hf
  · have : (⌊y⌋ : ℚ) < N := by linarith
    have : ⌊y⌋ < N := by exact_mod_cast this
    omega
  · exact hf
  · have hy : y - ⌊y⌋ = 1 / 2 := le_antisymm (not_lt.mp h2) (not_lt.mp h1)
    have : (⌊y⌋ : ℚ) < N := by linarith
    have : ⌊y⌋ < N := by exact_mod_cast this
    omega

theorem le_round_half_even (y : ℚ) (N : Int) (h : (N : ℚ) ≤ y) : N ≤ round_half_even y := by
  have hf : N ≤ ⌊y⌋ := Int.le_floor.mpr h
  unfold round_half_even
  split_ifs <;> omega


theorem binary32_ulp_pos (x : ℚ) : 0 < binary32_ulp x := by
  unfold binary32_ulp
  positivity

theorem binary32_exponent_le (x : ℚ) (hx : |x| ≤ 32768) :
    max (Int.log 2 |x|) (-126) - 23 ≤ -8 := by
  have hlog : Int.log 2 |x| ≤ 15 := by
    by_cases h0 : 0 < |x|
    · have h : |x| < ((2 : ℕ) : ℚ) ^ (16 : ℤ) := lt_of_le_of_lt hx (by norm_num)
      have := (Int.lt_zpow_iff_log_lt (by norm_num) h0).mp h
      omega
    · rw [Int.log_of_right_le_zero 2 (not_lt.mp h0)]
      norm_num
  omega

theorem binary32_ulp_divides (x : ℚ) (hx : |x| ≤ 32768) (m : Int) :
    ∃ N : Int, (m : ℚ) / 256 / binary32_ulp x = N := by
  have hk := binary32_exponent_le x hx
  unfold binary32_ulp
  generalize max (Int.log 2 |x|) (-126) - 23 = k at hk
  obtain ⟨n, rfl⟩ : ∃ n : ℕ, k = -(8 + n : ℕ) := ⟨(-k - 8).toNat, by omega⟩
  refine ⟨m * 2 ^ n, ?_⟩
  rw [zpow_neg, zpow_natCast, pow_add]
  push_cast
  field_simp
  ring

theorem binary32_round_le (x : ℚ) (hx : |x| ≤ 32768) (m : Int) (h : x ≤ (m : ℚ) / 256) :
    binary32_round x ≤ (m : ℚ) / 256 := by
  obtain ⟨N, hN⟩ := binary32_ulp_divides x hx m
  have hpos := binary32_ulp_pos x
  have h1 : x / binary32_ulp x ≤ N := by
    rw [← hN]
    exact div_le_div_of_nonneg_right h (le_of_lt hpos)
  have h2 := round_half_even_le _ N h1
  have h3 : (round_half_even (x / binary32_ulp x) : ℚ) ≤ N := by exact_mod_cast h2
  unfold binary32_round
  calc (round_half_even (x / binary32_ulp x) : ℚ) * binary32_ulp x
      ≤ N * binary32_ulp x := mul_le_mul_of_nonneg_right h3 (le_of_lt hpos)
    _ = (m : ℚ) / 256 := by rw [← hN]; field_simp; ring

theorem le_binary32_round (x : ℚ) (hx : |x| ≤ 32768) (m : Int) (h : (m : ℚ) / 256 ≤ x) :
    (m : ℚ) / 256 ≤ binary32_round x := by
  obtain ⟨N, hN⟩ := binary32_ulp_divides x hx m
  have hpos := binary32_ulp_pos x
  have h1 : (N : ℚ) ≤ x / binary32_ulp x := by
    rw [← hN]
    exact div_le_div_of_nonneg_right h (le_of_lt hpos)
  have h2 := le_round_half_even _ N h1
  have h3 : (N : ℚ) ≤ round_half_even (x / binary32_ulp x) := by exact_mod_cast h2
  unfold binary32_round
  calc (m : ℚ) / 256 = N * binary32_ulp x := by rw [← hN]; field_simp; ring
    _ ≤ (round_half_even (x / binary32_ulp x) : ℚ) * binary32_ulp x :=
        mul_le_mul_of_nonneg_right h3 (le_of_lt hpos)


theorem binary32_round_mem (x lo hi : ℚ) (a b : Int) (hlo : lo = (a : ℚ) / 256)
    (hhi : hi = (b : ℚ) / 256) (hx : |x| ≤ 32768) (h1 : lo ≤ x) (h2 : x ≤ hi) :
    lo ≤ binary32_round x ∧ binary32_round x ≤ hi := by
  subst hlo
  subst hhi
  exact ⟨le_binary32_round x hx a h1, binary32_round_le x hx b h2⟩

theorem mul_finite_small (a b : ℚ) (h1 : -32768 ≤ binary32_round (a * b))
    (h2 : binary32_round (a * b) ≤ 32767) :
    Float32.mul (finite a) (finite b) = finite (binary32_round (a * b)) := by
  simp only [Float32.mul, Float32.of_rounded]
  rw [if_neg (by linarith [show (32767 : ℚ) < 2 ^ 128 by norm_num]),
    if_neg (by linarith [show -(2 : ℚ) ^ 128 < -32768 by norm_num])]

theorem std_min_finite (a b : ℚ) : std_min (finite a) (finite b) = finite (min a b) := by
  unfold std_min
  by_cases h : b < a
  · simp [Float32.lt, h, min_eq_right (le_of_lt h)]
  · simp [Float32.lt, h, min_eq_left (not_lt.mp h)]

theorem std_max_finite (a b : ℚ) : std_max (finite a) (finite b) = finite (max a b) := by
  unfold std_max
  by_cases h : a < b
  · simp [Float32.lt, h, max_eq_right (le_of_lt h)]
  · simp [Float32.lt, h, max_eq_left (not_lt.mp h)]

theorem float_to_s16_finite_nonneg (q : ℚ) (hq : 0 ≤ q) :
    float_to_s16 (finite q) = some ⌊binary32_round (min 1 q * 32767)⌋ ∧
      float_to_int (binary32_round (min 1 q * 32767))
        = ⌊binary32_round (min 1 q * 32767)⌋ ∧
      0 ≤ ⌊binary32_round (min 1 q * 32767)⌋ ∧
      ⌊binary32_round (min 1 q * 32767)⌋ ≤ 32767 := by
  have hm0 : (0 : ℚ) ≤ min 1 q := le_min (by norm_num) hq
  have hm1 : min 1 q ≤ (1 : ℚ) := min_le_left _ _
  have hx0 : (0 : ℚ) ≤ min 1 q * 32767 := mul_nonneg hm0 (by norm_num)
  have hx1 : min 1 q * 32767 ≤ (32767 : ℚ) := by linarith
  have habs : |min 1 q * 32767| ≤ (32768 : ℚ) := by
    rw [abs_of_nonneg hx0]
    linarith
  obtain ⟨hr0, hr1⟩ := binary32_round_mem (min 1 q * 32767) 0 32767 0 (32767 * 256)
    (by norm_num) (by norm_num) habs hx0 hx1
  have hge : Float32.ge (finite q) (finite 0) = true := by
    simp [Float32.ge, Float32.lt, hq]
  have hfl0 : (0 : Int) ≤ ⌊binary32_round (min 1 q * 32767)⌋ := Int.floor_nonneg.mpr hr0
  have hfl1 : ⌊binary32_round (min 1 q * 32767)⌋ < (32768 : Int) :=
    Int.floor_lt.mpr (lt_of_le_of_lt hr1 (by norm_num))
  refine ⟨?_, by unfold float_to_int; rw [if_pos hr0], hfl0, by omega⟩
  unfold float_to_s16
  rw [if_pos hge, std_min_finite, mul_finite_small _ _ (by linarith) hr1]
  simp only [float_to_int16, float_to_int]
  rw [if_pos hr0, if_pos ⟨by omega, by omega⟩]

theorem float_to_s16_finite_neg (q : ℚ) (hq : q < 0) :
    float_to_s16 (finite q) = some ⌈binary32_round (max (-1) q * 32768)⌉ ∧
      float_to_int (binary32_round (max (-1) q * 32768))
        = ⌈binary32_round (max (-1) q * 32768)⌉ ∧
      -32768 ≤ ⌈binary32_round (max (-1) q * 32768)⌉ ∧
      ⌈binary32_round (max (-1) q * 32768)⌉ ≤ 0 := by
  have hm0 : max (-1) q < (0 : ℚ) := max_lt (by norm_num) hq
  have hm1 : (-1 : ℚ) ≤ max (-1) q := le_max_left _ _
  have hx0 : max (-1) q * 32768 ≤ (0 : ℚ) := by nlinarith
  have hx1 : (-32768 : ℚ) ≤ max (-1) q * 32768 := by linarith
  have habs : |max (-1) q * 32768| ≤ (32768 : ℚ) := by
    rw [abs_of_nonpos hx0]
    linarith
  obtain ⟨hr1, hr0⟩ := binary32_round_mem (max (-1) q * 32768) (-32768) 0 (-32768 * 256) 0
    (by norm_num) (by norm_num) habs hx1 hx0
  have hge : Float32.ge (finite q) (finite 0) = false := by
    simp [Float32.ge, Float32.lt, hq]
  have hc0 : ⌈binary32_round (max (-1) q * 32768)⌉ ≤ (0 : Int) :=
    Int.ceil_le.mpr (by simpa using hr0)
  have hc1 : (-32769 : Int) < ⌈binary32_round (max (-1) q * 32768)⌉ :=
    Int.lt_ceil.mpr (lt_of_lt_of_le (by norm_num) hr1)
  have hcast : float_to_int (binary32_round (max (-1) q * 32768))
      = ⌈binary32_round (max (-1) q * 32768)⌉ := by
    unfold float_to_int
    by_cases h0 : 0 ≤ binary32_round (max (-1) q * 32768)
    · have : binary32_round (max (-1) q * 32768) = 0 := le_antisymm hr0 h0
      rw [if_pos h0, this]
      simp
    · rw [if_neg h0]
  refine ⟨?_, hcast, by omega, hc0⟩
  unfold float_to_s16
  rw [hge, if_neg (by simp), std_max_finite, mul_finite_small _ _ hr1 (by linarith)]
  simp only [float_to_int16]
  rw [hcast, if_pos ⟨by omega, by omega⟩]


theorem binary32_round_grid (x : ℚ) (m : Int) (hx : |x| ≤ 32768) (h : x = (m : ℚ) / 256) :
    binary32_round x = x :=
  le_antisymm (by
      have := binary32_round_le x hx m (le_of_eq h)
      rw [← h] at this
      exact this) (by
      have := le_binary32_round x hx m (le_of_eq h.symm)
      rw [← h] at this
      exact this)

theorem float_to_s16_one : float_to_s16 (finite 1) = some 32767 := by
  rw [(float_to_s16_finite_nonneg 1 (by norm_num)).1, min_self,
    binary32_round_grid (1 * 32767) (32767 * 256) (by norm_num [abs_of_nonneg]) (by norm_num)]
  norm_num

theorem float_to_s16_neg_one : float_to_s16 (finite (-1)) = some (-32768) := by
  rw [(float_to_s16_finite_neg (-1) (by norm_num)).1, max_self,
    binary32_round_grid (-1 * 32768) (-32768 * 256) (by norm_num [abs_of_nonneg])
      (by norm_num)]
  congr 1
  rw [Int.ceil_eq_iff]
  norm_num

theorem float_to_s16_half : float_to_s16 (finite (1 / 2)) = some 16383 := by
  rw [(float_to_s16_finite_nonneg _ (by norm_num)).1, min_eq_right (by norm_num),
    binary32_round_grid (1 / 2 * 32767) 4194176 (by norm_num [abs_of_nonneg]) (by norm_num)]
  congr 1
  rw [Int.floor_eq_iff]
  norm_num

theorem float_to_s16_pos_inf : float_to_s16 pos_inf = some 32767 := by
  rw [← float_to_s16_one]
  simp [float_to_s16, Float32.ge, Float32.lt, std_min]

theorem float_to_s16_neg_inf : float_to_s16 neg_inf = some (-32768) := by
  rw [← float_to_s16_neg_one]
  simp [float_to_s16, Float32.ge, Float32.lt, std_max]

theorem float_to_s16_nan : float_to_s16 nan = some (-32768) := by
  rw [← float_to_s16_neg_one]
  simp [float_to_s16, Float32.ge, Float32.lt, std_max]

theorem float_to_s16_range (v : Float32) :
    ∃ n, float_to_s16 v = some n ∧ -32768 ≤ n ∧ n ≤ 32767 := by
  cases v with
  | pos_inf => exact ⟨_, float_to_s16_pos_inf, by norm_num, by norm_num⟩
  | neg_inf => exact ⟨_, float_to_s16_neg_inf, by norm_num, by norm_num⟩
  | nan => exact ⟨_, float_to_s16_nan, by norm_num, by norm_num⟩
  | finite q =>
    by_cases hq : 0 ≤ q
    · obtain ⟨h, _, h0, h1⟩ := float_to_s16_finite_nonneg q hq
      exact ⟨_, h, by omega, h1⟩
    · obtain ⟨h, _, h0, h1⟩ := float_to_s16_finite_neg q (not_le.mp hq)
      exact ⟨_, h, h0, by omega⟩

theorem float_to_s16_above_one (q : ℚ) (hq : 1 < q) :
    float_to_s16 (finite q) = float_to_s16 (finite 1) := by
  rw [(float_to_s16_finite_nonneg q (by linarith)).1,
    (float_to_s16_finite_nonneg 1 (by norm_num)).1, min_eq_left (le_of_lt hq), min_self]

theorem float_to_s16_below_neg_one (q : ℚ) (hq : q < -1) :
    float_to_s16 (finite q) = float_to_s16 (finite (-1)) := by
  rw [(float_to_s16_finite_neg q (by linarith)).1,
    (float_to_s16_finite_neg (-1) (by norm_num)).1, max_eq_left (le_of_lt hq), max_self]

theorem binary32_ulp_of_binade (x : ℚ) (e : Int) (h1 : ((2 : ℕ) : ℚ) ^ e ≤ |x|)
    (h2 : |x| < ((2 : ℕ) : ℚ) ^ (e + 1)) (he : -126 ≤ e) :
    binary32_ulp x = (2 : ℚ) ^ (e - 23) := by
  have hpos : 0 < |x| := lt_of_lt_of_le (by positivity) h1
  have hle : e ≤ Int.log 2 |x| := (Int.zpow_le_iff_le_log (by norm_num) hpos).mp h1
  have hlt : Int.log 2 |x| < e + 1 := (Int.lt_zpow_iff_log_lt (by norm_num) hpos).mp h2
  have : Int.log 2 |x| = e := by omega
  unfold binary32_ulp
  rw [this, max_eq_left he]

/-- The product is rounded to binary32 before the conversion: at `v = 2^-15 + 2^-30` the exact
product is `1 - 2^-30`, which truncates to 0, but its binary32 value is 1 and `float_to_s16`
returns 1. -/
theorem float_to_s16_product_rounded :
    float_to_s16 (finite (1 / 2 ^ 15 + 1 / 2 ^ 30)) = some 1 ∧
    float_to_int (min 1 (1 / 2 ^ 15 + 1 / 2 ^ 30) * 32767) = 0 := by
  have hx : min 1 (1 / 2 ^ 15 + 1 / 2 ^ 30 : ℚ) * 32767 = 1 - 1 / 2 ^ 30 := by
    rw [min_eq_right (by norm_num)]
    norm_num
  have hulp : binary32_ulp (1 - 1 / 2 ^ 30) = 1 / 2 ^ 24 := by
    rw [binary32_ulp_of_binade _ (-1) (by norm_num [abs_of_nonneg])
      (by norm_num [abs_of_nonneg]) (by norm_num)]
    norm_num
  have hfl : ⌊((1 - 1 / 2 ^ 30) / (1 / 2 ^ 24) : ℚ)⌋ = 16777215 := by
    rw [Int.floor_eq_iff]
    norm_num
  have hrd : round_half_even ((1 - 1 / 2 ^ 30) / (1 / 2 ^ 24)) = 16777216 := by
    unfold round_half_even
    rw [hfl]
    norm_num
  have hr : binary32_round (1 - 1 / 2 ^ 30) = 1 := by
    unfold binary32_round
    rw [hulp, hrd]
    norm_num
  constructor
  · rw [(float_to_s16_finite_nonneg _ (by norm_num)).1, hx, hr]
    simp
  · rw [hx]
    unfold float_to_int
    rw [if_pos (by norm_num), Int.floor_eq_iff]
    norm_num

/-- C16, counterexample: at `v = 1/2` the product `min(1, v) * 32767` is 16383.5 (exactly, in
binary32 too); `float_to_s16(1/2)` is 16383 (the conversion truncates), while rounding to the
nearest integer gives 16384. Hence `float_to_s16` is not the clamp-then-round rule. -/
theorem float_to_s16_half_not_rounded :
    float_to_s16 (finite (1 / 2)) = some 16383 ∧
    float_to_s16_rounding (1 / 2) = 16384 ∧
    round (min 1 (1 / 2 : ℚ) * 32767) = 16384 ∧
    round (binary32_round (min 1 (1 / 2 : ℚ) * 32767)) = 16384 ∧
    ¬ (∀ q : ℚ, q ≥ 0 → float_to_s16 (finite q) = some (round (min 1 q * 32767))) := by
  have h2 : round (min 1 (1 / 2 : ℚ) * 32767) = 16384 := by
    rw [round_eq, Int.floor_eq_iff]
    norm_num
  have h3 : binary32_round (min 1 (1 / 2 : ℚ) * 32767) = min 1 (1 / 2 : ℚ) * 32767 :=
    binary32_round_grid _ 4194176 (by norm_num [abs_of_nonneg]) (by norm_num)
  refine ⟨float_to_s16_half, ?_, h2, ?_, ?_⟩
  · unfold float_to_s16_rounding
    rw [if_pos (by norm_num)]
    exact h2
  · rw [h3]
    exact h2
  · intro hall
    have h := hall (1 / 2) (by norm_num)
    rw [float_to_s16_half, h2] at h
    exact absurd h (by decide)

/-- C16, amended (clamp, multiply in `float`, truncate): for every finite `v >= 0`,
`float_to_s16(v)` is the `float` product `min(1, v) * 32767` (the exact product rounded to
binary32) rounded toward zero (its floor, the product being non-negative), and for every
finite `v < 0` it is the `float` product `max(-1, v) * 32768` rounded toward zero (its
ceiling, the product being non-positive); consequently `float_to_s16(v) = float_to_s16(1)`
for every `v > 1` (the positive infinity included) and `float_to_s16(v) = float_to_s16(-1)`
for every `v < -1` (the negative infinity included); `float_to_s16(1/2)` is 16383. -/
theorem float_to_s16_clamp_truncate :
    (∀ q : ℚ, 0 ≤ q →
      float_to_s16 (finite q) = some (float_to_int (binary32_round (min 1 q * 32767))) ∧
      float_to_int (binary32_round (min 1 q * 32767))
        = ⌊binary32_round (min 1 q * 32767)⌋) ∧
    (∀ q : ℚ, q < 0 →
      float_to_s16 (finite q) = some (float_to_int (binary32_round (max (-1) q * 32768))) ∧
      float_to_int (binary32_round (max (-1) q * 32768))
        = ⌈binary32_round (max (-1) q * 32768)⌉) ∧
    (∀ q : ℚ, 1 < q → float_to_s16 (finite q) = float_to_s16 (finite 1)) ∧
    float_to_s16 pos_inf = float_to_s16 (finite 1) ∧
    (∀ q : ℚ, q < -1 → float_to_s16 (finite q) = float_to_s16 (finite (-1))) ∧
    float_to_s16 neg_inf = float_to_s16 (finite (-1)) ∧
    float_to_s16 (finite (1 / 2)) = some 16383 := by
  refine ⟨?_, ?_, float_to_s16_above_one, ?_, float_to_s16_below_neg_one, ?_,
    float_to_s16_half⟩
  · intro q hq
    obtain ⟨h, hc, _, _⟩ := float_to_s16_finite_nonneg q hq
    exact ⟨by rw [h, hc], hc⟩
  · intro q hq
    obtain ⟨h, hc, _, _⟩ := float_to_s16_finite_neg q hq
    exact ⟨by rw [h, hc], hc⟩
  · rw [float_to_s16_pos_inf, float_to_s16_one]
  · rw [float_to_s16_neg_inf, float_to_s16_neg_one]

/-- Witness for the amended C16: `1/3 >= 0` and `float_to_s16(1/3)` is the truncated binary32
product `min(1, 1/3) * 32767`; `-1/3 < 0` and `float_to_s16(-1/3)` is the truncated binary32
product `max(-1, -1/3) * 32768`; `2 > 1` and `float_to_s16(2) = float_to_s16(1)`; `-3/2 < -1`
and `float_to_s16(-3/2) = float_to_s16(-1)`. -/
theorem float_to_s16_clamp_truncate_witness :
    ((0 : ℚ) ≤ 1 / 3 ∧
      float_to_s16 (finite (1 / 3))
        = some (float_to_int (binary32_round (min 1 (1 / 3) * 32767)))) ∧
    ((-1 / 3 : ℚ) < 0 ∧
      float_to_s16 (finite (-1 / 3))
        = some (float_to_int (binary32_round (max (-1) (-1 / 3) * 32768)))) ∧
    ((1 : ℚ) < 2 ∧ float_to_s16 (finite 2) = float_to_s16 (finite 1)) ∧
    ((-3 / 2 : ℚ) < -1 ∧ float_to_s16 (finite (-3 / 2)) = float_to_s16 (finite (-1))) :=
  ⟨⟨by norm_num, (float_to_s16_clamp_truncate.1 (1 / 3) (by norm_num)).1⟩,
    ⟨by norm_num, (float_to_s16_clamp_truncate.2.1 (-1 / 3) (by norm_num)).1⟩,
    ⟨by norm_num, float_to_s16_clamp_truncate.2.2.1 2 (by norm_num)⟩,
    ⟨by norm_num, float_to_s16_clamp_truncate.2.2.2.2.1 (-3 / 2) (by norm_num)⟩⟩

/-! ## The static bounds -/

/-- C17 (static bounds and the assertion): `get_axis_min` and `get_axis_max` return a value
for each of the 15 defined axes and hit the `never reached` assertion exactly for
`XBOX_AXIS_UNKNOWN` and `XBOX_AXIS_MAX`; consequently `get_axis_float` and `set_axis_float`
return (never reach the assertion) when called with a defined axis. -/
theorem bounds_assert_iff_undefined :
    (∀ a : XboxAxis,
      ((get_axis_min a).isSome = a.defined) ∧ ((get_axis_max a).isSome = a.defined)) ∧
    (∀ a : XboxAxis, get_axis_min a = none ↔ (a = XBOX_AXIS_UNKNOWN ∨ a = XBOX_AXIS_MAX)) ∧
    (∀ a : XboxAxis, get_axis_max a = none ↔ (a = XBOX_AXIS_UNKNOWN ∨ a = XBOX_AXIS_MAX)) ∧
    ([XBOX_AXIS_X1, XBOX_AXIS_Y1, XBOX_AXIS_X2, XBOX_AXIS_Y2, XBOX_AXIS_LT, XBOX_AXIS_RT,
        XBOX_AXIS_DPAD_X, XBOX_AXIS_DPAD_Y, XBOX_AXIS_TRIGGER, XBOX_AXIS_A, XBOX_AXIS_B,
        XBOX_AXIS_X, XBOX_AXIS_Y, XBOX_AXIS_BLACK, XBOX_AXIS_WHITE].all
      (fun a => (get_axis_min a).isSome && (get_axis_max a).isSome && a.defined) = true) ∧
    (∀ {R F : Type} (from_float : R → Int → Int → Int) (to_float : Int → Int → Int → F)
      (s : XboxGenericMsg) (a : XboxAxis) (v : R), a.defined = true →
        (∃ r, s.get_axis_float to_float a = some r) ∧
        (∃ s', s.set_axis_float from_float a v = some s')) := by
  refine ⟨?_, ?_, ?_, by decide, ?_⟩
  · intro a
    cases a <;> exact ⟨rfl, rfl⟩
  · intro a
    cases a <;> simp [get_axis_min]
  · intro a
    cases a <;> simp [get_axis_max]
  · intro R F from_float to_float s a v ha
    cases a <;> first
      | exact absurd ha (by decide)
      | exact ⟨⟨_, rfl⟩, ⟨_, rfl⟩⟩

/-- Witness for C17: RT is a defined axis; on the all-zero snapshot `get_axis_float(RT)` and
`set_axis_float(RT, 1/2)` both return. -/
theorem bounds_assert_iff_undefined_witness :
    XBOX_AXIS_RT.defined = true ∧
    (∃ r, zeroed.get_axis_float (fun v lo hi => ((v - lo : Int) : ℚ) / ((hi - lo : Int) : ℚ))
        XBOX_AXIS_RT = some r) ∧
    (∃ s', zeroed.set_axis_float (fun (_ : ℚ) (_ hi : Int) => hi) XBOX_AXIS_RT (1 / 2)
        = some s') :=
  ⟨rfl, bounds_assert_iff_undefined.2.2.2.2 _ _ zeroed XBOX_AXIS_RT (1 / 2) rfl⟩

/-! ## Name parsing -/

theorem string_beq_false {s t : String} (h : s ≠ t) : (s == t) = false := by
  simp [h]

theorem string2btn_error (input : String) (h : to_lower input ∉ button_aliases) :
    string2btn input
      = Except.error ("couldn't convert string \"" ++ to_lower input ++ "\" to XboxButton") := by
  unfold string2btn
  generalize to_lower input = str at h ⊢
  simp only [button_aliases, List.mem_cons, List.mem_singleton, List.not_mem_nil, or_false,
    not_or] at h
  obtain ⟨
    h1, h2, h3, h4, h5, h6, h7, h8, h9, h10, h11, h12, h13, h14, h15, h16, h17, h18, h19, h20,
    h21, h22, h23, h24, h25, h26, h27, h28, h29, h30, h31, h32, h33, h34, h35, h36, h37, h38,
    h39, h40, h41, h42, h43, h44, h45, h46, h47, h48⟩ := h
  dsimp only
  rw [
    string_beq_false h1, string_beq_false h2, string_beq_false h3, string_beq_false h4,
    string_beq_false h5, string_beq_false h6, string_beq_false h7, string_beq_false h8,
    string_beq_false h9, string_beq_false h10, string_beq_false h11, string_beq_false h12,
    string_beq_false h13, string_beq_false h14, string_beq_false h15, string_beq_false h16,
    string_beq_false h17, string_beq_false h18, string_beq_false h19, string_beq_false h20,
    string_beq_false h21, string_beq_false h22, string_beq_false h23, string_beq_false h24,
    string_beq_false h25, string_beq_false h26, string_beq_false h27, string_beq_false h28,
    string_beq_false h29, string_beq_false h30, string_beq_false h31, string_beq_false h32,
    string_beq_false h33, string_beq_false h34, string_beq_false h35, string_beq_false h36,
    string_beq_false h37, string_beq_false h38, string_beq_false h39, string_beq_false h40,
    string_beq_false h41, string_beq_false h42, string_beq_false h43, string_beq_false h44,
    string_beq_false h45, string_beq_false h46, string_beq_false h47, string_beq_false h48]
  rfl

theorem string2btn_ok (input : String) (h : to_lower input ∈ button_aliases) :
    ∃ b, string2btn input = Except.ok b := by
  unfold string2btn
  generalize to_lower input = str at h ⊢
  simp only [button_aliases, List.mem_cons, List.mem_singleton, List.not_mem_nil, or_false] at h
  rcases h with
    rfl | rfl | rfl | rfl | rfl | rfl | rfl | rfl | rfl | rfl | rfl | rfl | rfl | rfl | rfl |
    rfl | rfl | rfl | rfl | rfl | rfl | rfl | rfl | rfl | rfl | rfl | rfl | rfl | rfl | rfl |
    rfl | rfl | rfl | rfl | rfl | rfl | rfl | rfl | rfl | rfl | rfl | rfl | rfl | rfl | rfl |
    rfl | rfl | rfl <;>
    exact ⟨_, rfl⟩

theorem string2axis_error (input : String) (h : to_lower input ∉ axis_aliases) :
    string2axis input
      = Except.error ("couldn't convert string \"" ++ to_lower input ++ "\" to XboxAxis") := by
  unfold string2axis
  generalize to_lower input = str at h ⊢
  simp only [axis_aliases, List.mem_cons, List.mem_singleton, List.not_mem_nil, or_false,
    not_or] at h
  obtain ⟨
    h1, h2, h3, h4, h5, h6, h7, h8, h9, h10, h11, h12, h13, h14, h15, h16, h17, h18, h19, h20,
    h21, h22, h23, h24, h25, h26, h27, h28, h29⟩ := h
  dsimp only
  rw [
    string_beq_false h1, string_beq_false h2, string_beq_false h3, string_beq_false h4,
    string_beq_false h5, string_beq_false h6, string_beq_false h7, string_beq_false h8,
    string_beq_false h9, string_beq_false h10, string_beq_false h11, string_beq_false h12,
    string_beq_false h13, string_beq_false h14, string_beq_false h15, string_beq_false h16,
    string_beq_false h17, string_beq_false h18, string_beq_false h19, string_beq_false h20,
    string_beq_false h21, string_beq_false h22, string_beq_false h23, string_beq_false h24,
    string_beq_false h25, string_beq_false h26, string_beq_false h27, string_beq_false h28,
    string_beq_false h29]
  rfl

theorem string2axis_ok (input : String) (h : to_lower input ∈ axis_aliases) :
    ∃ a, string2axis input = Except.ok a := by
  unfold string2axis
  generalize to_lower input = str at h ⊢
  simp only [axis_aliases, List.mem_cons, List.mem_singleton, List.not_mem_nil, or_false] at h
  rcases h with
    rfl | rfl | rfl | rfl | rfl | rfl | rfl | rfl | rfl | rfl | rfl | rfl | rfl | rfl | rfl |
    rfl | rfl | rfl | rfl | rfl | rfl | rfl | rfl | rfl | rfl | rfl | rfl | rfl | rfl <;>
    exact ⟨_, rfl⟩

theorem occursIn_message (pre part post : String) : occursIn part (pre ++ part ++ post) := by
  unfold occursIn
  exact ⟨pre.data, post.data, by simp [String.data_append]⟩

/-- C18, counterexample: for the input "FOO" both parsers raise, with the messages
`couldn't convert string "foo" to XboxButton` and `couldn't convert string "foo" to XboxAxis`;
neither contains "FOO", the input as supplied. -/
theorem error_message_is_lowercased :
    string2btn "FOO" = Except.error "couldn't convert string \"foo\" to XboxButton" ∧
    ¬ occursIn "FOO" "couldn't convert string \"foo\" to XboxButton" ∧
    string2axis "FOO" = Except.error "couldn't convert string \"foo\" to XboxAxis" ∧
    ¬ occursIn "FOO" "couldn't convert string \"foo\" to XboxAxis" ∧
    ¬ (∀ input msg : String, string2btn input = Except.error msg → occursIn input msg) := by
  have h1 : ¬ occursIn "FOO" "couldn't convert string \"foo\" to XboxButton" := by
    unfold occursIn
    decide
  have h2 : ¬ occursIn "FOO" "couldn't convert string \"foo\" to XboxAxis" := by
    unfold occursIn
    decide
  exact ⟨rfl, h1, rfl, h2, fun hall => h1 (hall "FOO" _ rfl)⟩

/-- C18, amended (unrecognized-name error): for every input string whose lower-cased form is
no button alias `string2btn` raises an error, and for every input string whose lower-cased
form is no axis alias `string2axis` raises an error; in both cases the message is
`couldn't convert string "` followed by the lower-cased input and `" to XboxButton`
(`" to XboxAxis`), so it contains the lower-cased input string (for "FOO" it contains "foo");
for every string whose lower-cased form is an alias no error is raised. -/
theorem unrecognized_name_error (input : String) :
    (to_lower input ∉ button_aliases →
      string2btn input
          = Except.error
              ("couldn't convert string \"" ++ to_lower input ++ "\" to XboxButton") ∧
        occursIn (to_lower input)
          ("couldn't convert string \"" ++ to_lower input ++ "\" to XboxButton")) ∧
    (to_lower input ∈ button_aliases → ∃ b, string2btn input = Except.ok b) ∧
    (to_lower input ∉ axis_aliases →
      string2axis input
          = Except.error
              ("couldn't convert string \"" ++ to_lower input ++ "\" to XboxAxis") ∧
        occursIn (to_lower input)
          ("couldn't convert string \"" ++ to_lower input ++ "\" to XboxAxis")) ∧
    (to_lower input ∈ axis_aliases → ∃ a, string2axis input = Except.ok a) :=
  ⟨fun h => ⟨string2btn_error input h, occursIn_message _ _ _⟩,
    fun h => string2btn_ok input h,
    fun h => ⟨string2axis_error input h, occursIn_message _ _ _⟩,
    fun h => string2axis_ok input h⟩

/-- Witness for the amended C18: "FOO" lower-cases to "foo", which is neither a button alias
nor an axis alias, and both messages contain "foo"; "Select" lower-cases to the button alias
"select" and "Whammy" to the axis alias "whammy", and neither call raises. -/
theorem unrecognized_name_error_witness :
    (to_lower "FOO" ∉ button_aliases ∧
      string2btn "FOO"
          = Except.error ("couldn't convert string \"" ++ to_lower "FOO" ++ "\" to XboxButton") ∧
      occursIn (to_lower "FOO")
        ("couldn't convert string \"" ++ to_lower "FOO" ++ "\" to XboxButton")) ∧
    (to_lower "Select" ∈ button_aliases ∧ ∃ b, string2btn "Select" = Except.ok b) ∧
    (to_lower "FOO" ∉ axis_aliases ∧
      string2axis "FOO"
          = Except.error ("couldn't convert string \"" ++ to_lower "FOO" ++ "\" to XboxAxis") ∧
      occursIn (to_lower "FOO")
        ("couldn't convert string \"" ++ to_lower "FOO" ++ "\" to XboxAxis")) ∧
    (to_lower "Whammy" ∈ axis_aliases ∧ ∃ a, string2axis "Whammy" = Except.ok a) :=
  ⟨⟨by decide, (unrecognized_name_error "FOO").1 (by decide)⟩,
    ⟨by decide, (unrecognized_name_error "Select").2.1 (by decide)⟩,
    ⟨by decide, (unrecognized_name_error "FOO").2.2.1 (by decide)⟩,
    ⟨by decide, (unrecognized_name_error "Whammy").2.2.2 (by decide)⟩⟩

/-- C19 (axis name round trip): for each of the 15 defined axes `a`,
`string2axis(axis2string(a))` returns `a` without raising. -/
theorem axis_name_round_trip (a : XboxAxis) (h : a.defined = true) :
    string2axis (axis2string a) = Except.ok a := by
  cases a <;> first
    | rfl
    | exact absurd h (by decide)

/-- Witness for C19: BLACK is a defined axis, its name is "Black", and parsing that name
gives BLACK back. -/
theorem axis_name_round_trip_witness :
    XBOX_AXIS_BLACK.defined = true ∧ axis2string XBOX_AXIS_BLACK = "Black" ∧
    string2axis (axis2string XBOX_AXIS_BLACK) = Except.ok XBOX_AXIS_BLACK :=
  ⟨rfl, rfl, axis_name_round_trip XBOX_AXIS_BLACK rfl⟩

/-- C20 (button name round trip), the code at the failing inputs: `btn2string` names the four
D-pad buttons "DPAD_UP", "DPAD_DOWN", "DPAD_LEFT" and "DPAD_RIGHT", and `string2btn` raises on
each of these names (it knows the D-pad buttons as "du"/"up", "dd"/"down", "dl"/"left",
"dr"/"right" only); the other 13 defined buttons round-trip. -/
theorem dpad_button_names_not_parsed :
    (string2btn (btn2string XBOX_DPAD_UP)
        = Except.error "couldn't convert string \"dpad_up\" to XboxButton" ∧
      string2btn (btn2string XBOX_DPAD_DOWN)
        = Except.error "couldn't convert string \"dpad_down\" to XboxButton" ∧
      string2btn (btn2string XBOX_DPAD_LEFT)
        = Except.error "couldn't convert string \"dpad_left\" to XboxButton" ∧
      string2btn (btn2string XBOX_DPAD_RIGHT)
        = Except.error "couldn't convert string \"dpad_right\" to XboxButton") ∧
    (string2btn "du" = Except.ok XBOX_DPAD_UP ∧ string2btn "dd" = Except.ok XBOX_DPAD_DOWN ∧
      string2btn "dl" = Except.ok XBOX_DPAD_LEFT ∧
      string2btn "dr" = Except.ok XBOX_DPAD_RIGHT) ∧
    [XBOX_BTN_START, XBOX_BTN_GUIDE, XBOX_BTN_BACK, XBOX_BTN_A, XBOX_BTN_B, XBOX_BTN_X,
        XBOX_BTN_Y, XBOX_BTN_LB, XBOX_BTN_RB, XBOX_BTN_LT, XBOX_BTN_RT, XBOX_BTN_THUMB_L,
        XBOX_BTN_THUMB_R].map (fun b => string2btn (btn2string b))
      = [XBOX_BTN_START, XBOX_BTN_GUIDE, XBOX_BTN_BACK, XBOX_BTN_A, XBOX_BTN_B, XBOX_BTN_X,
        XBOX_BTN_Y, XBOX_BTN_LB, XBOX_BTN_RB, XBOX_BTN_LT, XBOX_BTN_RT, XBOX_BTN_THUMB_L,
        XBOX_BTN_THUMB_R].map Except.ok ∧
    string2axis (axis2string XBOX_AXIS_DPAD_X) = Except.ok XBOX_AXIS_DPAD_X :=
  ⟨⟨rfl, rfl, rfl, rfl⟩, ⟨rfl, rfl, rfl, rfl⟩, rfl, rfl⟩

end XboxMsg
